import Mathlib

/-!
Verification development for the chess engine in `frontend/games/chess.js`
(the primary engine copy, functions `chessInitState`, `cPseudo`, `cAtk`,
`cIsInCheck`, `cGetLegal`, `cHasLegal`, `cSAN`, `cExec`, `cFinish`,
`chessUndo`, `cEval`, `cAB`, `cMinimax`).

The engine keeps its whole state in a single mutable global object `chess`.
The embedding passes that state explicitly: every function takes the state
(or the sub-record of fields it actually reads) and returns the updated
state.  Rendering, DOM, timers and WebSocket broadcasting are outside the
engine core (spec section 1) and are not modelled; the move log produced by
`cAddLog` is kept as a `log : List String` field because the notation text
is part of the engine's observable output.

Board squares are indexed `(r, f)` with `r = 0` the black back rank,
exactly as in the source.  Coordinates are `Int` because the source
computes candidate squares by signed offset arithmetic before bounds
checks.

The source's `cPseudo` (king castling gate) calls `cAtk`, which calls
`cPseudo` on every enemy piece including the enemy king, whose castling
gate may call `cAtk` again: the JavaScript recursion is unbounded (it
stack-overflows when both castling gates are simultaneously open).  The
embedding threads an explicit fuel through that one call edge; `FUEL = 64`
exceeds the recursion depth of every terminating source computation, and
all concrete positions used below keep the castling gates short-circuited,
so no fuel is ever consumed there.
-/

/-- Piece colour, `'w'` / `'b'` in the source. -/
inductive Color where
  | w
  | b
deriving DecidableEq, Repr

/-- The source's `color === 'w' ? 'b' : 'w'`. -/
def flipColor : Color → Color
  | Color.w => Color.b
  | Color.b => Color.w

/-- Piece kind, the source's one-letter `type` strings. -/
inductive PieceT where
  | p
  | n
  | b
  | r
  | q
  | k
deriving DecidableEq, Repr

structure Piece where
  type : PieceT
  color : Color
deriving DecidableEq, Repr

/-- 8×8 grid of optional pieces, row-major as in the source (`board[r][f]`). -/
abbrev Board := List (List (Option Piece))

/-- Read `board[r][f]`; all source reads are bounds-guarded, out-of-range
reads yield `none`. -/
def bGet (bd : Board) (r f : Int) : Option Piece :=
  if 0 ≤ r ∧ r < 8 ∧ 0 ≤ f ∧ f < 8 then (bd.getD r.toNat []).getD f.toNat none
  else none

/-- Write `board[r][f] = v` (no-op out of range). -/
def bSet (bd : Board) (r f : Int) (v : Option Piece) : Board :=
  if 0 ≤ r ∧ r < 8 ∧ 0 ≤ f ∧ f < 8 then
    bd.set r.toNat ((bd.getD r.toNat []).set f.toNat v)
  else bd

/-- All 64 squares in the source's scan order (`for r ... for f ...`),
written out as the literal row-major list. -/
def squares : List (Int × Int) :=
  [(0, 0), (0, 1), (0, 2), (0, 3), (0, 4), (0, 5), (0, 6), (0, 7),
   (1, 0), (1, 1), (1, 2), (1, 3), (1, 4), (1, 5), (1, 6), (1, 7),
   (2, 0), (2, 1), (2, 2), (2, 3), (2, 4), (2, 5), (2, 6), (2, 7),
   (3, 0), (3, 1), (3, 2), (3, 3), (3, 4), (3, 5), (3, 6), (3, 7),
   (4, 0), (4, 1), (4, 2), (4, 3), (4, 4), (4, 5), (4, 6), (4, 7),
   (5, 0), (5, 1), (5, 2), (5, 3), (5, 4), (5, 5), (5, 6), (5, 7),
   (6, 0), (6, 1), (6, 2), (6, 3), (6, 4), (6, 5), (6, 6), (6, 7),
   (7, 0), (7, 1), (7, 2), (7, 3), (7, 4), (7, 5), (7, 6), (7, 7)]

/-- The source's `chess.castling = { wk, wq, bk, bq }`. -/
structure Castling where
  wk : Bool
  wq : Bool
  bk : Bool
  bq : Bool
deriving DecidableEq, Repr

/-- `castling[color + 'k']`. -/
def Castling.kSide (c : Castling) : Color → Bool
  | Color.w => c.wk
  | Color.b => c.bk

/-- `castling[color + 'q']`. -/
def Castling.qSide (c : Castling) : Color → Bool
  | Color.w => c.wq
  | Color.b => c.bq

/-- `castling[color + 'k'] = v`. -/
def Castling.setK (c : Castling) : Color → Bool → Castling
  | Color.w, v => { c with wk := v }
  | Color.b, v => { c with bk := v }

/-- `castling[color + 'q'] = v`. -/
def Castling.setQ (c : Castling) : Color → Bool → Castling
  | Color.w, v => { c with wq := v }
  | Color.b, v => { c with bq := v }

/-- The fields of the global `chess` object read by the move generator
(`cPseudo` / `cAtk` / `cIsInCheck` / `cGetLegal` / `cHasLegal`):
`chess.board`, `chess.ep`, `chess.castling` and `chess.inCheck`
(the last via the castling gate `if (!chess.inCheck && ...)`). -/
structure PosView where
  board : Board
  ep : Option (Int × Int)
  castling : Castling
  inCheck : Bool
deriving DecidableEq, Repr

/-- The helper `ai` of `cPseudo`: add an in-bounds target square unless it
holds an own piece. -/
def aiAdd (pv : PosView) (color : Color) (l : List (Int × Int)) (tr tf : Int) :
    List (Int × Int) :=
  if 0 ≤ tr ∧ tr < 8 ∧ 0 ≤ tf ∧ tf < 8 then
    match bGet pv.board tr tf with
    | some t => if t.color = color then l else l ++ [(tr, tf)]
    | none => l ++ [(tr, tf)]
  else l

/-- The sliding walk of the helper `sl` of `cPseudo`; the `Nat` counter is
an upper bound on the remaining steps (a ray leaves the board after at
most 8 steps, the source's `while` loop needs no counter). -/
def slideGo (pv : PosView) (color : Color) (dr df : Int) :
    Nat → Int → Int → List (Int × Int)
  | 0, _, _ => []
  | n + 1, tr, tf =>
    if 0 ≤ tr ∧ tr < 8 ∧ 0 ≤ tf ∧ tf < 8 then
      match bGet pv.board tr tf with
      | some t => if t.color ≠ color then [(tr, tf)] else []
      | none => (tr, tf) :: slideGo pv color dr df n (tr + dr) (tf + df)
    else []

/-- The helper `sl(dr, df)` of `cPseudo`. -/
def slide (pv : PosView) (color : Color) (r f dr df : Int) : List (Int × Int) :=
  slideGo pv color dr df 8 (r + dr) (f + df)

def knightOffsets : List (Int × Int) :=
  [(2, 1), (2, -1), (-2, 1), (-2, -1), (1, 2), (1, -2), (-1, 2), (-1, -2)]

def kingOffsets : List (Int × Int) :=
  [(1, 0), (-1, 0), (0, 1), (0, -1), (1, 1), (1, -1), (-1, 1), (-1, -1)]

/-- The JavaScript truthiness test `t && t.color === opp` of `cPseudo`'s
pawn capture branch. -/
def isOppPiece (ob : Option Piece) (opp : Color) : Bool :=
  match ob with
  | some t => decide (t.color = opp)
  | none => false

/-- Body of `cAtk` as a scan parameterised by the pseudo-move generator it
consults (the source's `cAtk` loops over all squares and tests
`cPseudo(sr, sf, by).some(m => m[0] === r && m[1] === f)`). -/
def atkScan (ps : PosView → Int → Int → Color → List (Int × Int))
    (pv : PosView) (r f : Int) (byc : Color) : Bool :=
  squares.any fun sq =>
    match bGet pv.board sq.1 sq.2 with
    | none => false
    | some p =>
      decide (p.color = byc) &&
        (ps pv sq.1 sq.2 byc).any fun m => decide (m.1 = r) && decide (m.2 = f)

/-- Body of `cPseudo`, parameterised by the (one fuel level deeper)
pseudo-move generator used by the castling gate's `cAtk` calls. -/
def cPseudoFStep (prev : PosView → Int → Int → Color → List (Int × Int))
    (pv : PosView) (r f : Int) (color : Color) : List (Int × Int) :=
  match bGet pv.board r f with
  | none => []
  | some p =>
    if p.color ≠ color then []
    else
      let opp := flipColor color
      let dir : Int := if color = Color.w then -1 else 1
      match p.type with
      | PieceT.p =>
        let fwd : List (Int × Int) :=
          if 0 ≤ r + dir ∧ r + dir < 8 ∧ bGet pv.board (r + dir) f = none then
            let sr : Int := if color = Color.w then 6 else 1
            (r + dir, f) ::
              (if r = sr ∧ bGet pv.board (r + 2 * dir) f = none then
                [(r + 2 * dir, f)]
              else [])
          else []
        let diag : List (Int × Int) :=
          ([-1, 1] : List Int).flatMap fun df =>
            let tr2 := r + dir
            let tf2 := f + df
            if 0 ≤ tr2 ∧ tr2 < 8 ∧ 0 ≤ tf2 ∧ tf2 < 8 then
              (if isOppPiece (bGet pv.board tr2 tf2) opp then [(tr2, tf2)] else []) ++
                (if pv.ep = some (tr2, tf2) then [(tr2, tf2)] else [])
            else []
        fwd ++ diag
      | PieceT.r =>
        slide pv color r f 1 0 ++ slide pv color r f (-1) 0 ++
          slide pv color r f 0 1 ++ slide pv color r f 0 (-1)
      | PieceT.b =>
        slide pv color r f 1 1 ++ slide pv color r f 1 (-1) ++
          slide pv color r f (-1) 1 ++ slide pv color r f (-1) (-1)
      | PieceT.q =>
        slide pv color r f 1 0 ++ slide pv color r f (-1) 0 ++
          slide pv color r f 0 1 ++ slide pv color r f 0 (-1) ++
          slide pv color r f 1 1 ++ slide pv color r f 1 (-1) ++
          slide pv color r f (-1) 1 ++ slide pv color r f (-1) (-1)
      | PieceT.n =>
        knightOffsets.foldl (fun l d => aiAdd pv color l (r + d.1) (f + d.2)) []
      | PieceT.k =>
        let base :=
          kingOffsets.foldl (fun l d => aiAdd pv color l (r + d.1) (f + d.2)) []
        let br : Int := if color = Color.w then 7 else 0
        let castles :=
          if pv.inCheck = false ∧ r = br ∧ f = 4 then
            (if pv.castling.kSide color && (bGet pv.board br 5).isNone &&
                (bGet pv.board br 6).isNone && !atkScan prev pv br 5 opp &&
                !atkScan prev pv br 6 opp then
              [(br, 6)]
            else []) ++
              (if pv.castling.qSide color && (bGet pv.board br 3).isNone &&
                  (bGet pv.board br 2).isNone && (bGet pv.board br 1).isNone &&
                  !atkScan prev pv br 3 opp && !atkScan prev pv br 2 opp then
                [(br, 2)]
              else [])
          else []
        base ++ castles

/-- `cPseudo` at explicit fuel (fuel is consumed only on the castling
gate's nested `cAtk` calls, see the header comment). -/
def cPseudoF : Nat → PosView → Int → Int → Color → List (Int × Int)
  | 0 => cPseudoFStep fun _ _ _ _ => []
  | n + 1 => cPseudoFStep (cPseudoF n)

def FUEL : Nat := 64

/-- The source's `cPseudo(r, f, color)`. -/
def cPseudo (pv : PosView) (r f : Int) (color : Color) : List (Int × Int) :=
  cPseudoF FUEL pv r f color

/-- The source's `cAtk(r, f, by)`. -/
def cAtk (pv : PosView) (r f : Int) (byc : Color) : Bool :=
  atkScan (cPseudoF FUEL) pv r f byc

/-- King location scan of `cIsInCheck`: the source loops over all squares
without breaking, so the last matching square wins. -/
def findKing (bd : Board) (color : Color) : Option (Int × Int) :=
  squares.foldl
    (fun acc sq =>
      match bGet bd sq.1 sq.2 with
      | some p => if p.type = PieceT.k ∧ p.color = color then some sq else acc
      | none => acc)
    none

/-- The source's `cIsInCheck(color)`: `false` when no king of that colour
is on the board (`kr === -1`). -/
def cIsInCheck (pv : PosView) (color : Color) : Bool :=
  match findKing pv.board color with
  | none => false
  | some kq => cAtk pv kq.1 kq.2 (flipColor color)

/-- The scratch board built inside `cGetLegal`'s filter: relocate the
moving piece and, when the destination is the en-passant target and the
mover is a pawn, remove the passed pawn. -/
def cSimBoard (pv : PosView) (r f tr tf : Int) (color : Color) : Board :=
  let moved := bGet pv.board r f
  let b1 := bSet (bSet pv.board tr tf moved) r f none
  if (match moved with
      | some p => decide (p.type = PieceT.p)
      | none => false) && decide (pv.ep = some (tr, tf)) then
    bSet b1 (if color = Color.w then tr + 1 else tr - 1) tf none
  else b1

/-- The source's `cGetLegal(r, f, color)`: pseudo-moves filtered by king
safety on the simulated board (`chess.ep`, `chess.castling` and
`chess.inCheck` are left untouched by the simulation). -/
def cGetLegal (pv : PosView) (r f : Int) (color : Color) : List (Int × Int) :=
  (cPseudo pv r f color).filter fun m =>
    !cIsInCheck { pv with board := cSimBoard pv r f m.1 m.2 color } color

/-- The source's `cHasLegal(color)`. -/
def cHasLegal (pv : PosView) (color : Color) : Bool :=
  squares.any fun sq =>
    match bGet pv.board sq.1 sq.2 with
    | some p =>
      decide (p.color = color) && decide ((cGetLegal pv sq.1 sq.2 color).length > 0)
    | none => false

/-- Back-rank piece order of `chessInitState`. -/
def backRank : List PieceT :=
  [PieceT.r, PieceT.n, PieceT.b, PieceT.q, PieceT.k, PieceT.b, PieceT.n, PieceT.r]

def initBoard : Board :=
  [backRank.map fun t => some ⟨t, Color.b⟩,
   List.replicate 8 (some ⟨PieceT.p, Color.b⟩),
   List.replicate 8 none,
   List.replicate 8 none,
   List.replicate 8 none,
   List.replicate 8 none,
   List.replicate 8 (some ⟨PieceT.p, Color.w⟩),
   backRank.map fun t => some ⟨t, Color.w⟩]

/-- A history record pushed by `cFinish` / replayed by `chessUndo`. -/
structure MoveRec where
  fr : Int
  ff : Int
  tr : Int
  tf : Int
  san : String
  color : Color
deriving DecidableEq, Repr

/-- `chess.promo`, the suspended promotion of a non-silent `cExec`. -/
structure PendingPromo where
  fr : Int
  ff : Int
  tr : Int
  tf : Int
  color : Color
  san : String
deriving DecidableEq, Repr

/-- The engine-relevant fields of the global `chess` object.  The purely
visual fields `sel`, `legal` and `started` are omitted (spec section 1
scopes rendering out); `log` records the notation strings the source
hands to `cAddLog`. -/
structure GameState where
  board : Board
  turn : Color
  hist : List MoveRec
  castling : Castling
  ep : Option (Int × Int)
  capW : List PieceT
  capB : List PieceT
  inCheck : Bool
  mate : Bool
  stale : Bool
  promo : Option PendingPromo
  log : List String
deriving DecidableEq, Repr

/-- The move-generator view of the global state. -/
def GameState.pos (st : GameState) : PosView :=
  ⟨st.board, st.ep, st.castling, st.inCheck⟩

/-- The source's `chessInitState()` (minus the omitted visual fields). -/
def chessInitState : GameState where
  board := initBoard
  turn := Color.w
  hist := []
  castling := ⟨true, true, true, true⟩
  ep := none
  capW := []
  capB := []
  inCheck := false
  mate := false
  stale := false
  promo := none
  log := []

/-- `'abcdefgh'[f]`. -/
def fileStr (f : Int) : String :=
  (["a", "b", "c", "d", "e", "f", "g", "h"].getD f.toNat "")

/-- `'87654321'[r]`. -/
def rankStr (r : Int) : String :=
  (["8", "7", "6", "5", "4", "3", "2", "1"].getD r.toNat "")

/-- `piece.type.toUpperCase()`. -/
def pieceUpper : PieceT → String
  | PieceT.p => "P"
  | PieceT.n => "N"
  | PieceT.b => "B"
  | PieceT.r => "R"
  | PieceT.q => "Q"
  | PieceT.k => "K"

/-- The source's `cSAN`, evaluated before any board mutation (the `color`
parameter exists in the source but is unused there too). -/
def cSAN (pv : PosView) (_fr ff tr tf : Int) (piece : Piece)
    (target : Option Piece) (_color : Color) : String :=
  if piece.type = PieceT.k ∧ (tf - ff = 2 ∨ ff - tf = 2) then
    if tf > ff then "O-O" else "O-O-O"
  else
    let isEp := pv.ep = some (tr, tf)
    let s :=
      if piece.type ≠ PieceT.p then pieceUpper piece.type
      else if target.isSome ∨ isEp then fileStr ff
      else ""
    let s := if target.isSome ∨ (piece.type = PieceT.p ∧ isEp) then s ++ "x" else s
    s ++ fileStr tf ++ rankStr tr

/-- Push a captured piece type on `capW` / `capB` according to the
capturing colour. -/
def pushCap (st : GameState) (color : Color) (t : PieceT) : GameState :=
  match color with
  | Color.w => { st with capW := st.capW ++ [t] }
  | Color.b => { st with capB := st.capB ++ [t] }

/-- The source's `cFinish`: record the move, flip the side to move,
recompute `inCheck` / `mate` / `stale`, and (non-silently) log the
notation with its `#` / `+` suffix.  The broadcast / status / AI-timer
code it also runs is presentation glue outside the engine core. -/
def cFinish (st : GameState) (fr ff tr tf : Int) (color : Color) (san : String)
    (silent : Bool) : GameState :=
  let st1 := { st with hist := st.hist ++ [MoveRec.mk fr ff tr tf san color] }
  let nc := flipColor color
  let st2 := { st1 with turn := nc }
  let ic := cIsInCheck st2.pos nc
  let st3 := { st2 with inCheck := ic }
  let hasL := cHasLegal st3.pos nc
  let st4 := { st3 with mate := ic && !hasL, stale := !ic && !hasL }
  let fullSan := san ++ (if st4.mate then "#" else if ic then "+" else "")
  if silent then st4 else { st4 with log := st4.log ++ [fullSan] }

/-- Capture push of `cExec` (`if (target) { ... }`). -/
def execCapture (st : GameState) (color : Color) (target : Option Piece) :
    GameState :=
  match target with
  | some t => pushCap st color t.type
  | none => st

/-- En-passant capture of `cExec`: remove (and record) the passed pawn. -/
def execEpCapture (st : GameState) (piece : Piece) (tr tf : Int) (color : Color) :
    GameState :=
  if piece.type = PieceT.p ∧ st.ep = some (tr, tf) then
    let cr := if color = Color.w then tr + 1 else tr - 1
    let st :=
      match bGet st.board cr tf with
      | some cp => pushCap st color cp.type
      | none => st
    { st with board := bSet st.board cr tf none }
  else st

/-- Piece relocation of `cExec` (`board[tr][tf] = {...piece}; board[fr][ff] = null`). -/
def execRelocate (st : GameState) (piece : Piece) (fr ff tr tf : Int) : GameState :=
  { st with board := bSet (bSet st.board tr tf (some piece)) fr ff none }

/-- King handling of `cExec`: castling rook relocation and loss of both
castling rights. -/
def execKing (st : GameState) (piece : Piece) (ff tr tf : Int) (color : Color) :
    GameState :=
  if piece.type = PieceT.k then
    let st :=
      if tf - ff = 2 then
        { st with board := bSet (bSet st.board tr (tf - 1) (some ⟨PieceT.r, color⟩)) tr 7 none }
      else st
    let st :=
      if ff - tf = 2 then
        { st with board := bSet (bSet st.board tr (tf + 1) (some ⟨PieceT.r, color⟩)) tr 0 none }
      else st
    { st with castling := (st.castling.setK color false).setQ color false }
  else st

/-- Rook handling of `cExec`: loss of the corresponding castling right. -/
def execRook (st : GameState) (piece : Piece) (ff : Int) (color : Color) : GameState :=
  if piece.type = PieceT.r then
    let st := if ff = 0 then { st with castling := st.castling.setQ color false } else st
    if ff = 7 then { st with castling := st.castling.setK color false } else st
  else st

/-- En-passant target update of `cExec` (`chess.ep = null; if (pawn two
ranks) chess.ep = [(fr + tr) / 2, ff]`). -/
def execEpUpdate (st : GameState) (piece : Piece) (fr ff tr : Int) : GameState :=
  if piece.type = PieceT.p ∧ (tr - fr = 2 ∨ fr - tr = 2) then
    { st with ep := some ((fr + tr) / 2, ff) }
  else { st with ep := none }

/-- The source's `cExec(fr, ff, tr, tf, color, silent)`.  `none` models the
TypeError the source would raise when the origin square is empty (never
the case for the engine's own calls). -/
def cExec (st : GameState) (fr ff tr tf : Int) (color : Color) (silent : Bool) :
    Option GameState :=
  match bGet st.board fr ff with
  | none => none
  | some piece =>
    let target := bGet st.board tr tf
    let san := cSAN st.pos fr ff tr tf piece target color
    let st := execCapture st color target
    let st := execEpCapture st piece tr tf color
    let st := execRelocate st piece fr ff tr tf
    let st := execKing st piece ff tr tf color
    let st := execRook st piece ff color
    let st := execEpUpdate st piece fr ff tr
    if piece.type = PieceT.p ∧ (tr = 0 ∨ tr = 7) then
      if silent then
        some (cFinish { st with board := bSet st.board tr tf (some ⟨PieceT.q, color⟩) }
          fr ff tr tf color san silent)
      else
        some { st with promo := some ⟨fr, ff, tr, tf, color, san⟩ }
    else
      some (cFinish st fr ff tr tf color san silent)

/-- Drive the engine's own move-execution path: each move is executed via
`cExec` for the side to move, exactly as `cClick` (with `'w'`) and
`cAiMove` (with `'b'`) do. -/
def playMoves : GameState → List ((Int × Int) × (Int × Int)) → Option GameState
  | st, [] => some st
  | st, mv :: rest =>
    match cExec st mv.1.1 mv.1.2 mv.2.1 mv.2.2 st.turn false with
    | none => none
    | some st' => playMoves st' rest

/-- One replay step of the source's `chessUndo` loop (lines 497-511).
Unlike `cExec` it removes no en-passant-captured pawn, moves no rook on
castling, and always replays a promotion as a queen. -/
def chessUndoStep (st : GameState) (m : MoveRec) : GameState :=
  match bGet st.board m.fr m.ff with
  | none => st
  | some piece =>
    let st :=
      match bGet st.board m.tr m.tf with
      | some t => pushCap st m.color t.type
      | none => st
    let st := { st with board := bSet (bSet st.board m.tr m.tf (some piece)) m.fr m.ff none }
    let st :=
      if piece.type = PieceT.k then
        { st with castling := (st.castling.setK m.color false).setQ m.color false }
      else st
    let st :=
      if piece.type = PieceT.r then
        let st := if m.ff = 0 then { st with castling := st.castling.setQ m.color false } else st
        if m.ff = 7 then { st with castling := st.castling.setK m.color false } else st
      else st
    let st :=
      if piece.type = PieceT.p ∧ (m.tr - m.fr = 2 ∨ m.fr - m.tr = 2) then
        { st with ep := some ((m.fr + m.tr) / 2, m.ff) }
      else { st with ep := none }
    let st :=
      if piece.type = PieceT.p ∧ (m.tr = 0 ∨ m.tr = 7) then
        { st with board := bSet st.board m.tr m.tf (some ⟨PieceT.q, m.color⟩) }
      else st
    let st := { st with hist := st.hist ++ [m] }
    let st := { st with turn := flipColor m.color }
    { st with log := st.log ++ [m.san] }

/-- The source's `chessUndo()`: rejected below two half-moves, otherwise
rebuild a fresh initial state and replay all but the last two records.
(The `cAiRunning` guard is a concurrency flag outside this model.) -/
def chessUndo (st : GameState) : GameState :=
  if st.hist.length < 2 then st
  else
    let moves := st.hist.take (st.hist.length - 2)
    let st1 := moves.foldl chessUndoStep chessInitState
    { st1 with inCheck := cIsInCheck st1.pos st1.turn }

/-- Material values (source `PV`). -/
def pieceValue : PieceT → Int
  | PieceT.p => 100
  | PieceT.n => 320
  | PieceT.b => 330
  | PieceT.r => 500
  | PieceT.q => 900
  | PieceT.k => 20000

/-- Piece-square tables (source `PST`). -/
def pstTable : PieceT → List (List Int)
  | PieceT.p =>
    [[0, 0, 0, 0, 0, 0, 0, 0], [50, 50, 50, 50, 50, 50, 50, 50],
     [10, 10, 20, 30, 30, 20, 10, 10], [5, 5, 10, 25, 25, 10, 5, 5],
     [0, 0, 0, 20, 20, 0, 0, 0], [5, -5, -10, 0, 0, -10, -5, 5],
     [5, 10, 10, -20, -20, 10, 10, 5], [0, 0, 0, 0, 0, 0, 0, 0]]
  | PieceT.n =>
    [[-50, -40, -30, -30, -30, -30, -40, -50], [-40, -20, 0, 0, 0, 0, -20, -40],
     [-30, 0, 10, 15, 15, 10, 0, -30], [-30, 5, 15, 20, 20, 15, 5, -30],
     [-30, 0, 15, 20, 20, 15, 0, -30], [-30, 5, 10, 15, 15, 10, 5, -30],
     [-40, -20, 0, 5, 5, 0, -20, -40], [-50, -40, -30, -30, -30, -30, -40, -50]]
  | PieceT.b =>
    [[-20, -10, -10, -10, -10, -10, -10, -20], [-10, 0, 0, 0, 0, 0, 0, -10],
     [-10, 0, 5, 10, 10, 5, 0, -10], [-10, 5, 5, 10, 10, 5, 5, -10],
     [-10, 0, 10, 10, 10, 10, 0, -10], [-10, 10, 10, 10, 10, 10, 10, -10],
     [-10, 5, 0, 0, 0, 0, 5, -10], [-20, -10, -10, -10, -10, -10, -10, -20]]
  | PieceT.r =>
    [[0, 0, 0, 0, 0, 0, 0, 0], [5, 10, 10, 10, 10, 10, 10, 5],
     [-5, 0, 0, 0, 0, 0, 0, -5], [-5, 0, 0, 0, 0, 0, 0, -5],
     [-5, 0, 0, 0, 0, 0, 0, -5], [-5, 0, 0, 0, 0, 0, 0, -5],
     [-5, 0, 0, 0, 0, 0, 0, -5], [0, 0, 0, 5, 5, 0, 0, 0]]
  | PieceT.q =>
    [[-20, -10, -10, -5, -5, -10, -10, -20], [-10, 0, 0, 0, 0, 0, 0, -10],
     [-10, 0, 5, 5, 5, 5, 0, -10], [-5, 0, 5, 5, 5, 5, 0, -5],
     [0, 0, 5, 5, 5, 5, 0, -5], [-10, 5, 5, 5, 5, 5, 0, -10],
     [-10, 0, 5, 0, 0, 0, 0, -10], [-20, -10, -10, -5, -5, -10, -10, -20]]
  | PieceT.k =>
    [[-30, -40, -40, -50, -50, -40, -40, -30], [-30, -40, -40, -50, -50, -40, -40, -30],
     [-30, -40, -40, -50, -50, -40, -40, -30], [-30, -40, -40, -50, -50, -40, -40, -30],
     [-20, -30, -30, -40, -40, -30, -30, -20], [-10, -20, -20, -20, -20, -20, -20, -10],
     [20, 20, 0, 0, 0, 0, 20, 20], [20, 30, 10, 0, 0, 10, 30, 20]]

/-- `PST[p.type]?.[pr]?.[f] || 0`. -/
def pstAt (t : PieceT) (pr fc : Int) : Int :=
  ((pstTable t).getD pr.toNat []).getD fc.toNat 0

/-- The source's `cEval()` (positive favours Black, the AI side). -/
def cEval (bd : Board) : Int :=
  squares.foldl
    (fun s sq =>
      match bGet bd sq.1 sq.2 with
      | none => s
      | some p =>
        let pr := if p.color = Color.w then sq.1 else 7 - sq.1
        s + (if p.color = Color.b then 1 else -1) * (pieceValue p.type + pstAt p.type pr sq.2))
    0

/-- Stand-in for IEEE `-Infinity`: every score the search can produce
(`cEval` is bounded by 64 · 20050, plus the sentinels ±99999) lies
strictly inside `(negInf, posInf)`, so all comparisons agree with the
source's float comparisons. -/
def negInf : Int := -1000000000

/-- Stand-in for IEEE `Infinity`. -/
def posInf : Int := 1000000000

/-- The source's `const color = maximizing ? 'b' : 'w'` in `cAB`. -/
def abColor (maximizing : Bool) : Color :=
  if maximizing then Color.b else Color.w

/-- Loop accumulator of `cAB`: the local variables `best`, `alpha`,
`beta`, `moved`, the global `chess` state, and the `break outer` flag. -/
structure ABAcc where
  best : Int
  alpha : Int
  beta : Int
  moved : Bool
  st : GameState
  broke : Bool

/-- One iteration of `cAB`'s inner move loop (lines 465-484): apply the
hypothetical move (auto-queening) to a copy of the entry snapshot `sB`,
recurse, restore the five saved globals, and update best/alpha/beta. -/
def cABMoveStep (recAB : Bool → Int → Int → GameState → Int × GameState)
    (maximizing : Bool) (color : Color) (sB : Board) (sC : Castling)
    (sE : Option (Int × Int)) (sTu : Color) (sCh : Bool) (rf : Int × Int)
    (a : ABAcc) (m : Int × Int) : ABAcc :=
  if a.broke then a
  else
    match bGet sB rf.1 rf.2 with
    | none => { a with moved := true }
    | some piece =>
      let nb1 := bSet (bSet sB m.1 m.2 (some piece)) rf.1 rf.2 none
      let nb2 :=
        if piece.type = PieceT.p ∧ (m.1 = 0 ∨ m.1 = 7) then
          bSet nb1 m.1 m.2 (some ⟨PieceT.q, color⟩)
        else nb1
      let nt := flipColor color
      let ic := cIsInCheck ⟨nb2, a.st.ep, a.st.castling, a.st.inCheck⟩ nt
      let stMoved := { a.st with board := nb2, turn := nt, inCheck := ic }
      let res := recAB (!maximizing) a.alpha a.beta stMoved
      let stR := { res.2 with board := sB, castling := sC, ep := sE, turn := sTu, inCheck := sCh }
      if maximizing then
        let best := max a.best res.1
        let alpha := max a.alpha best
        ⟨best, alpha, a.beta, true, stR, decide (a.beta ≤ alpha)⟩
      else
        let best := min a.best res.1
        let beta := min a.beta best
        ⟨best, a.alpha, beta, true, stR, decide (beta ≤ a.alpha)⟩

/-- One iteration of `cAB`'s square loop (lines 458-485): on an own piece,
set `chess.turn` / `chess.inCheck` and run the move loop over its legal
moves. -/
def cABSquareStep (recAB : Bool → Int → Int → GameState → Int × GameState)
    (maximizing : Bool) (color : Color) (sB : Board) (sC : Castling)
    (sE : Option (Int × Int)) (sTu : Color) (sCh : Bool) (acc : ABAcc)
    (rf : Int × Int) : ABAcc :=
  if acc.broke then acc
  else
    match bGet acc.st.board rf.1 rf.2 with
    | none => acc
    | some p =>
      if p.color ≠ color then acc
      else
        let st1 := { acc.st with turn := color, inCheck := sCh }
        let ms := cGetLegal ⟨acc.st.board, acc.st.ep, acc.st.castling, sCh⟩ rf.1 rf.2 color
        ms.foldl (cABMoveStep recAB maximizing color sB sC sE sTu sCh rf)
          { acc with st := st1 }

/-- Body of `cAB` for positive depth, parameterised by the recursive call. -/
def cABStep (recAB : Bool → Int → Int → GameState → Int × GameState)
    (maximizing : Bool) (alpha beta : Int) (st : GameState) : Int × GameState :=
  let color := abColor maximizing
  let acc :=
    squares.foldl
      (cABSquareStep recAB maximizing color st.board st.castling st.ep st.turn st.inCheck)
      ⟨if maximizing then negInf else posInf, alpha, beta, false, st, false⟩
  (if acc.moved then acc.best else if maximizing then -99999 else 99999, acc.st)

/-- The source's `cAB(depth, maximizing, alpha, beta)`, with the global
state threaded explicitly (the second component is the state of the
globals when the function returns). -/
def cAB : Nat → Bool → Int → Int → GameState → Int × GameState
  | 0 => fun _ _ _ st => (cEval st.board, st)
  | d + 1 => cABStep (cAB d)

/-- The move object returned by `cMinimax`. -/
structure BestMove where
  fr : Int
  ff : Int
  tr : Int
  tf : Int
deriving DecidableEq, Repr

/-- Loop accumulator of `cMinimax`: `bestS`, `bestM` and the global state. -/
structure MMAcc where
  bestS : Int
  bestM : Option BestMove
  st : GameState

/-- One iteration of `cMinimax`'s move loop (lines 426-442): apply the
candidate to a copy of the current board (auto-queening; castling rights
and en-passant target are left as they are), score it with `cAB(1, ...)`,
then restore all five saved globals. -/
def cMinimaxMoveStep (sBoard : Board) (sCast : Castling) (sEP : Option (Int × Int))
    (sTurn : Color) (sCheck : Bool) (rf : Int × Int) (a : MMAcc) (m : Int × Int) :
    MMAcc :=
  match bGet a.st.board rf.1 rf.2 with
  | none => a
  | some piece =>
    let nb1 := bSet (bSet a.st.board m.1 m.2 (some piece)) rf.1 rf.2 none
    let nb2 :=
      if piece.type = PieceT.p ∧ (m.1 = 0 ∨ m.1 = 7) then
        bSet nb1 m.1 m.2 (some ⟨PieceT.q, Color.b⟩)
      else nb1
    let ic := cIsInCheck ⟨nb2, a.st.ep, a.st.castling, a.st.inCheck⟩ Color.w
    let stMoved := { a.st with board := nb2, turn := Color.w, inCheck := ic }
    let res := cAB 1 false negInf posInf stMoved
    let stR := { res.2 with board := sBoard, castling := sCast, ep := sEP, turn := sTurn, inCheck := sCheck }
    if res.1 > a.bestS then ⟨res.1, some ⟨rf.1, rf.2, m.1, m.2⟩, stR⟩
    else { a with st := stR }

/-- One iteration of `cMinimax`'s square loop (lines 421-444). -/
def cMinimaxSquareStep (sBoard : Board) (sCast : Castling) (sEP : Option (Int × Int))
    (sTurn : Color) (sCheck : Bool) (acc : MMAcc) (rf : Int × Int) : MMAcc :=
  match bGet acc.st.board rf.1 rf.2 with
  | none => acc
  | some p =>
    if p.color ≠ Color.b then acc
    else
      let ms := cGetLegal acc.st.pos rf.1 rf.2 Color.b
      ms.foldl (cMinimaxMoveStep sBoard sCast sEP sTurn sCheck rf) acc

/-- The source's `cMinimax()` (the search root selecting Black's move). -/
def cMinimax (st : GameState) : Option BestMove × GameState :=
  let acc :=
    squares.foldl (cMinimaxSquareStep st.board st.castling st.ep st.turn st.inCheck)
      ⟨negInf, none, st⟩
  (acc.bestM, acc.st)

/-- Modelled from the spec's wording for claim C2 only (section 4.2:
"true if any piece of `byColor` has `square` in its pseudo-move set
(pawn attack squares only, not forward pushes)"): identical to `cAtk`
except that a pawn contributes only the diagonal squares of its
pseudo-move set, never the straight pushes.  This definition exists to be
compared against the source's `cAtk`. -/
def specIsSquareAttacked (pv : PosView) (r f : Int) (byc : Color) : Bool :=
  squares.any fun sq =>
    match bGet pv.board sq.1 sq.2 with
    | none => false
    | some p =>
      decide (p.color = byc) &&
        (if p.type = PieceT.p then
            (cPseudo pv sq.1 sq.2 byc).filter fun m => decide (m.2 ≠ sq.2)
          else cPseudo pv sq.1 sq.2 byc).any
          fun m => decide (m.1 = r) && decide (m.2 = f)

def emptyBoard : Board := List.replicate 8 (List.replicate 8 none)

/-- A board holding a single black pawn on a7 (square `(1,0)`), with the
square in front of it (`(2,0)`) empty. -/
def pawnOnlyView : PosView :=
  ⟨bSet emptyBoard 1 0 (some ⟨PieceT.p, Color.b⟩), none, ⟨true, true, true, true⟩, false⟩

/-- The spec's scholar's-mate test sequence, literally:
1.e4 e5 2.Qh5 Nc6 3.Qxf7. -/
def scholarStated : List ((Int × Int) × (Int × Int)) :=
  [((6, 4), (4, 4)), ((1, 4), (3, 4)), ((7, 3), (3, 7)), ((0, 1), (2, 2)),
   ((3, 7), (1, 5))]

/-- An actual scholar's mate: 1.e4 e5 2.Bc4 Nc6 3.Qh5 Nf6 4.Qxf7#. -/
def scholarReal : List ((Int × Int) × (Int × Int)) :=
  [((6, 4), (4, 4)), ((1, 4), (3, 4)), ((7, 5), (4, 2)), ((0, 1), (2, 2)),
   ((7, 3), (3, 7)), ((0, 6), (2, 5)), ((3, 7), (1, 5))]

/-- A short game whose fifth half-move is an en-passant capture:
1.e4 b6 2.e5 d5 3.exd6 (e.p.) b5 4.Nf3. -/
def epGameSeq : List ((Int × Int) × (Int × Int)) :=
  [((6, 4), (4, 4)), ((1, 1), (2, 1)), ((4, 4), (3, 4)), ((1, 3), (3, 3)),
   ((3, 4), (2, 3)), ((2, 1), (3, 1)), ((7, 6), (5, 5))]

/-- Two kings only: black king a8, white king b6.  Black (the AI side)
has exactly one legal move, Ka8-b8. -/
def miniSt : GameState :=
  { chessInitState with
    board := bSet (bSet emptyBoard 0 0 (some ⟨PieceT.k, Color.b⟩)) 2 1
      (some ⟨PieceT.k, Color.w⟩),
    turn := Color.b }

/-- A classic stalemate: black king a8, white queen b6, white king h1;
Black to move has no legal move and is not in check. -/
def staleSt : GameState :=
  { chessInitState with
    board := bSet (bSet (bSet emptyBoard 0 0 (some ⟨PieceT.k, Color.b⟩)) 2 1
      (some ⟨PieceT.q, Color.w⟩)) 7 7 (some ⟨PieceT.k, Color.w⟩),
    turn := Color.b }

/-- All legal White moves of the initial position, tagged with their
origin square. -/
def whiteInitMoves : List (Int × Int × Int × Int) :=
  squares.flatMap fun sq =>
    (cGetLegal chessInitState.pos sq.1 sq.2 Color.w).map fun m => (sq.1, sq.2, m.1, m.2)

/-- Does this optional piece hold a king of the given colour? -/
def isKingOf (op : Option Piece) (color : Color) : Bool :=
  match op with
  | some p => decide (p.type = PieceT.k) && decide (p.color = color)
  | none => false

/-- The fields of the global `chess` object that neither `cAB` nor
`cGetLegal` ever write (everything but the five saved-and-restored
globals `board`, `castling`, `ep`, `turn`, `inCheck`). -/
def GameState.bookkeeping (st : GameState) :
    List MoveRec × List PieceT × List PieceT × Bool × Bool × Option PendingPromo × List String :=
  (st.hist, st.capW, st.capB, st.mate, st.stale, st.promo, st.log)

def sA1 : GameState :=
{ board := [[some { type := PieceT.r, color := Color.b },
              some { type := PieceT.n, color := Color.b },
              some { type := PieceT.b, color := Color.b },
              some { type := PieceT.q, color := Color.b },
              some { type := PieceT.k, color := Color.b },
              some { type := PieceT.b, color := Color.b },
              some { type := PieceT.n, color := Color.b },
              some { type := PieceT.r, color := Color.b }],
             [some { type := PieceT.p, color := Color.b },
              some { type := PieceT.p, color := Color.b },
              some { type := PieceT.p, color := Color.b },
              some { type := PieceT.p, color := Color.b },
              some { type := PieceT.p, color := Color.b },
              some { type := PieceT.p, color := Color.b },
              some { type := PieceT.p, color := Color.b },
              some { type := PieceT.p, color := Color.b }],
             [none, none, none, none, none, none, none, none],
             [none, none, none, none, none, none, none, none],
             [none, none, none, none, some { type := PieceT.p, color := Color.w }, none, none, none],
             [none, none, none, none, none, none, none, none],
             [some { type := PieceT.p, color := Color.w },
              some { type := PieceT.p, color := Color.w },
              some { type := PieceT.p, color := Color.w },
              some { type := PieceT.p, color := Color.w },
              none,
              some { type := PieceT.p, color := Color.w },
              some { type := PieceT.p, color := Color.w },
              some { type := PieceT.p, color := Color.w }],
             [some { type := PieceT.r, color := Color.w },
              some { type := PieceT.n, color := Color.w },
              some { type := PieceT.b, color := Color.w },
              some { type := PieceT.q, color := Color.w },
              some { type := PieceT.k, color := Color.w },
              some { type := PieceT.b, color := Color.w },
              some { type := PieceT.n, color := Color.w },
              some { type := PieceT.r, color := Color.w }]],
   turn := Color.b,
   hist := [{ fr := 6, ff := 4, tr := 4, tf := 4, san := "e4", color := Color.w }],
   castling := { wk := true, wq := true, bk := true, bq := true },
   ep := some (5, 4),
   capW := [],
   capB := [],
   inCheck := false,
   mate := false,
   stale := false,
   promo := none,
   log := ["e4"] }

def sA2 : GameState :=
{ board := [[some { type := PieceT.r, color := Color.b },
              some { type := PieceT.n, color := Color.b },
              some { type := PieceT.b, color := Color.b },
              some { type := PieceT.q, color := Color.b },
              some { type := PieceT.k, color := Color.b },
              some { type := PieceT.b, color := Color.b },
              some { type := PieceT.n, color := Color.b },
              some { type := PieceT.r, color := Color.b }],
             [some { type := PieceT.p, color := Color.b },
              some { type := PieceT.p, color := Color.b },
              some { type := PieceT.p, color := Color.b },
              some { type := PieceT.p, color := Color.b },
              none,
              some { type := PieceT.p, color := Color.b },
              some { type := PieceT.p, color := Color.b },
              some { type := PieceT.p, color := Color.b }],
             [none, none, none, none, none, none, none, none],
             [none, none, none, none, some { type := PieceT.p, color := Color.b }, none, none, none],
             [none, none, none, none, some { type := PieceT.p, color := Color.w }, none, none, none],
             [none, none, none, none, none, none, none, none],
             [some { type := PieceT.p, color := Color.w },
              some { type := PieceT.p, color := Color.w },
              some { type := PieceT.p, color := Color.w },
              some { type := PieceT.p, color := Color.w },
              none,
              some { type := PieceT.p, color := Color.w },
              some { type := PieceT.p, color := Color.w },
              some { type := PieceT.p, color := Color.w }],
             [some { type := PieceT.r, color := Color.w },
              some { type := PieceT.n, color := Color.w },
              some { type := PieceT.b, color := Color.w },
              some { type := PieceT.q, color := Color.w },
              some { type := PieceT.k, color := Color.w },
              some { type := PieceT.b, color := Color.w },
              some { type := PieceT.n, color := Color.w },
              some { type := PieceT.r, color := Color.w }]],
   turn := Color.w,
   hist := [{ fr := 6, ff := 4, tr := 4, tf := 4, san := "e4", color := Color.w },
            { fr := 1, ff := 4, tr := 3, tf := 4, san := "e5", color := Color.b }],
   castling := { wk := true, wq := true, bk := true, bq := true },
   ep := some (2, 4),
   capW := [],
   capB := [],
   inCheck := false,
   mate := false,
   stale := false,
   promo := none,
   log := ["e4", "e5"] }

def sB3 : GameState :=
{ board := [[some { type := PieceT.r, color := Color.b },
              some { type := PieceT.n, color := Color.b },
              some { type := PieceT.b, color := Color.b },
              some { type := PieceT.q, color := Color.b },
              some { type := PieceT.k, color := Color.b },
              some { type := PieceT.b, color := Color.b },
              some { type := PieceT.n, color := Color.b },
              some { type := PieceT.r, color := Color.b }],
             [some { type := PieceT.p, color := Color.b },
              some { type := PieceT.p, color := Color.b },
              some { type := PieceT.p, color := Color.b },
              some { type := PieceT.p, color := Color.b },
              none,
              some { type := PieceT.p, color := Color.b },
              some { type := PieceT.p, color := Color.b },
              some { type := PieceT.p, color := Color.b }],
             [none, none, none, none, none, none, none, none],
             [none,
              none,
              none,
              none,
              some { type := PieceT.p, color := Color.b },
              none,
              none,
              some { type := PieceT.q, color := Color.w }],
             [none, none, none, none, some { type := PieceT.p, color := Color.w }, none, none, none],
             [none, none, none, none, none, none, none, none],
             [some { type := PieceT.p, color := Color.w },
              some { type := PieceT.p, color := Color.w },
              some { type := PieceT.p, color := Color.w },
              some { type := PieceT.p, color := Color.w },
              none,
              some { type := PieceT.p, color := Color.w },
              some { type := PieceT.p, color := Color.w },
              some { type := PieceT.p, color := Color.w }],
             [some { type := PieceT.r, color := Color.w },
              some { type := PieceT.n, color := Color.w },
              some { type := PieceT.b, color := Color.w },
              none,
              some { type := PieceT.k, color := Color.w },
              some { type := PieceT.b, color := Color.w },
              some { type := PieceT.n, color := Color.w },
              some { type := PieceT.r, color := Color.w }]],
   turn := Color.b,
   hist := [{ fr := 6, ff := 4, tr := 4, tf := 4, san := "e4", color := Color.w },
            { fr := 1, ff := 4, tr := 3, tf := 4, san := "e5", color := Color.b },
            { fr := 7, ff := 3, tr := 3, tf := 7, san := "Qh5", color := Color.w }],
   castling := { wk := true, wq := true, bk := true, bq := true },
   ep := none,
   capW := [],
   capB := [],
   inCheck := false,
   mate := false,
   stale := false,
   promo := none,
   log := ["e4", "e5", "Qh5"] }

def sB4 : GameState :=
{ board := [[some { type := PieceT.r, color := Color.b },
              none,
              some { type := PieceT.b, color := Color.b },
              some { type := PieceT.q, color := Color.b },
              some { type := PieceT.k, color := Color.b },
              some { type := PieceT.b, color := Color.b },
              some { type := PieceT.n, color := Color.b },
              some { type := PieceT.r, color := Color.b }],
             [some { type := PieceT.p, color := Color.b },
              some { type := PieceT.p, color := Color.b },
              some { type := PieceT.p, color := Color.b },
              some { type := PieceT.p, color := Color.b },
              none,
              some { type := PieceT.p, color := Color.b },
              some { type := PieceT.p, color := Color.b },
              some { type := PieceT.p, color := Color.b }],
             [none, none, some { type := PieceT.n, color := Color.b }, none, none, none, none, none],
             [none,
              none,
              none,
              none,
              some { type := PieceT.p, color := Color.b },
              none,
              none,
              some { type := PieceT.q, color := Color.w }],
             [none, none, none, none, some { type := PieceT.p, color := Color.w }, none, none, none],
             [none, none, none, none, none, none, none, none],
             [some { type := PieceT.p, color := Color.w },
              some { type := PieceT.p, color := Color.w },
              some { type := PieceT.p, color := Color.w },
              some { type := PieceT.p, color := Color.w },
              none,
              some { type := PieceT.p, color := Color.w },
              some { type := PieceT.p, color := Color.w },
              some { type := PieceT.p, color := Color.w }],
             [some { type := PieceT.r, color := Color.w },
              some { type := PieceT.n, color := Color.w },
              some { type := PieceT.b, color := Color.w },
              none,
              some { type := PieceT.k, color := Color.w },
              some { type := PieceT.b, color := Color.w },
              some { type := PieceT.n, color := Color.w },
              some { type := PieceT.r, color := Color.w }]],
   turn := Color.w,
   hist := [{ fr := 6, ff := 4, tr := 4, tf := 4, san := "e4", color := Color.w },
            { fr := 1, ff := 4, tr := 3, tf := 4, san := "e5", color := Color.b },
            { fr := 7, ff := 3, tr := 3, tf := 7, san := "Qh5", color := Color.w },
            { fr := 0, ff := 1, tr := 2, tf := 2, san := "Nc6", color := Color.b }],
   castling := { wk := true, wq := true, bk := true, bq := true },
   ep := none,
   capW := [],
   capB := [],
   inCheck := false,
   mate := false,
   stale := false,
   promo := none,
   log := ["e4", "e5", "Qh5", "Nc6"] }

def sB5 : GameState :=
{ board := [[some { type := PieceT.r, color := Color.b },
              none,
              some { type := PieceT.b, color := Color.b },
              some { type := PieceT.q, color := Color.b },
              some { type := PieceT.k, color := Color.b },
              some { type := PieceT.b, color := Color.b },
              some { type := PieceT.n, color := Color.b },
              some { type := PieceT.r, color := Color.b }],
             [some { type := PieceT.p, color := Color.b },
              some { type := PieceT.p, color := Color.b },
              some { type := PieceT.p, color := Color.b },
              some { type := PieceT.p, color := Color.b },
              none,
              some { type := PieceT.q, color := Color.w },
              some { type := PieceT.p, color := Color.b },
              some { type := PieceT.p, color := Color.b }],
             [none, none, some { type := PieceT.n, color := Color.b }, none, none, none, none, none],
             [none, none, none, none, some { type := PieceT.p, color := Color.b }, none, none, none],
             [none, none, none, none, some { type := PieceT.p, color := Color.w }, none, none, none],
             [none, none, none, none, none, none, none, none],
             [some { type := PieceT.p, color := Color.w },
              some { type := PieceT.p, color := Color.w },
              some { type := PieceT.p, color := Color.w },
              some { type := PieceT.p, color := Color.w },
              none,
              some { type := PieceT.p, color := Color.w },
              some { type := PieceT.p, color := Color.w },
              some { type := PieceT.p, color := Color.w }],
             [some { type := PieceT.r, color := Color.w },
              some { type := PieceT.n, color := Color.w },
              some { type := PieceT.b, color := Color.w },
              none,
              some { type := PieceT.k, color := Color.w },
              some { type := PieceT.b, color := Color.w },
              some { type := PieceT.n, color := Color.w },
              some { type := PieceT.r, color := Color.w }]],
   turn := Color.b,
   hist := [{ fr := 6, ff := 4, tr := 4, tf := 4, san := "e4", color := Color.w },
            { fr := 1, ff := 4, tr := 3, tf := 4, san := "e5", color := Color.b },
            { fr := 7, ff := 3, tr := 3, tf := 7, san := "Qh5", color := Color.w },
            { fr := 0, ff := 1, tr := 2, tf := 2, san := "Nc6", color := Color.b },
            { fr := 3, ff := 7, tr := 1, tf := 5, san := "Qxf7", color := Color.w }],
   castling := { wk := true, wq := true, bk := true, bq := true },
   ep := none,
   capW := [PieceT.p],
   capB := [],
   inCheck := true,
   mate := false,
   stale := false,
   promo := none,
   log := ["e4", "e5", "Qh5", "Nc6", "Qxf7+"] }

def sC3 : GameState :=
{ board := [[some { type := PieceT.r, color := Color.b },
              some { type := PieceT.n, color := Color.b },
              some { type := PieceT.b, color := Color.b },
              some { type := PieceT.q, color := Color.b },
              some { type := PieceT.k, color := Color.b },
              some { type := PieceT.b, color := Color.b },
              some { type := PieceT.n, color := Color.b },
              some { type := PieceT.r, color := Color.b }],
             [some { type := PieceT.p, color := Color.b },
              some { type := PieceT.p, color := Color.b },
              some { type := PieceT.p, color := Color.b },
              some { type := PieceT.p, color := Color.b },
              none,
              some { type := PieceT.p, color := Color.b },
              some { type := PieceT.p, color := Color.b },
              some { type := PieceT.p, color := Color.b }],
             [none, none, none, none, none, none, none, none],
             [none, none, none, none, some { type := PieceT.p, color := Color.b }, none, none, none],
             [none,
              none,
              some { type := PieceT.b, color := Color.w },
              none,
              some { type := PieceT.p, color := Color.w },
              none,
              none,
              none],
             [none, none, none, none, none, none, none, none],
             [some { type := PieceT.p, color := Color.w },
              some { type := PieceT.p, color := Color.w },
              some { type := PieceT.p, color := Color.w },
              some { type := PieceT.p, color := Color.w },
              none,
              some { type := PieceT.p, color := Color.w },
              some { type := PieceT.p, color := Color.w },
              some { type := PieceT.p, color := Color.w }],
             [some { type := PieceT.r, color := Color.w },
              some { type := PieceT.n, color := Color.w },
              some { type := PieceT.b, color := Color.w },
              some { type := PieceT.q, color := Color.w },
              some { type := PieceT.k, color := Color.w },
              none,
              some { type := PieceT.n, color := Color.w },
              some { type := PieceT.r, color := Color.w }]],
   turn := Color.b,
   hist := [{ fr := 6, ff := 4, tr := 4, tf := 4, san := "e4", color := Color.w },
            { fr := 1, ff := 4, tr := 3, tf := 4, san := "e5", color := Color.b },
            { fr := 7, ff := 5, tr := 4, tf := 2, san := "Bc4", color := Color.w }],
   castling := { wk := true, wq := true, bk := true, bq := true },
   ep := none,
   capW := [],
   capB := [],
   inCheck := false,
   mate := false,
   stale := false,
   promo := none,
   log := ["e4", "e5", "Bc4"] }

def sC4 : GameState :=
{ board := [[some { type := PieceT.r, color := Color.b },
              none,
              some { type := PieceT.b, color := Color.b },
              some { type := PieceT.q, color := Color.b },
              some { type := PieceT.k, color := Color.b },
              some { type := PieceT.b, color := Color.b },
              some { type := PieceT.n, color := Color.b },
              some { type := PieceT.r, color := Color.b }],
             [some { type := PieceT.p, color := Color.b },
              some { type := PieceT.p, color := Color.b },
              some { type := PieceT.p, color := Color.b },
              some { type := PieceT.p, color := Color.b },
              none,
              some { type := PieceT.p, color := Color.b },
              some { type := PieceT.p, color := Color.b },
              some { type := PieceT.p, color := Color.b }],
             [none, none, some { type := PieceT.n, color := Color.b }, none, none, none, none, none],
             [none, none, none, none, some { type := PieceT.p, color := Color.b }, none, none, none],
             [none,
              none,
              some { type := PieceT.b, color := Color.w },
              none,
              some { type := PieceT.p, color := Color.w },
              none,
              none,
              none],
             [none, none, none, none, none, none, none, none],
             [some { type := PieceT.p, color := Color.w },
              some { type := PieceT.p, color := Color.w },
              some { type := PieceT.p, color := Color.w },
              some { type := PieceT.p, color := Color.w },
              none,
              some { type := PieceT.p, color := Color.w },
              some { type := PieceT.p, color := Color.w },
              some { type := PieceT.p, color := Color.w }],
             [some { type := PieceT.r, color := Color.w },
              some { type := PieceT.n, color := Color.w },
              some { type := PieceT.b, color := Color.w },
              some { type := PieceT.q, color := Color.w },
              some { type := PieceT.k, color := Color.w },
              none,
              some { type := PieceT.n, color := Color.w },
              some { type := PieceT.r, color := Color.w }]],
   turn := Color.w,
   hist := [{ fr := 6, ff := 4, tr := 4, tf := 4, san := "e4", color := Color.w },
            { fr := 1, ff := 4, tr := 3, tf := 4, san := "e5", color := Color.b },
            { fr := 7, ff := 5, tr := 4, tf := 2, san := "Bc4", color := Color.w },
            { fr := 0, ff := 1, tr := 2, tf := 2, san := "Nc6", color := Color.b }],
   castling := { wk := true, wq := true, bk := true, bq := true },
   ep := none,
   capW := [],
   capB := [],
   inCheck := false,
   mate := false,
   stale := false,
   promo := none,
   log := ["e4", "e5", "Bc4", "Nc6"] }

def sC5 : GameState :=
{ board := [[some { type := PieceT.r, color := Color.b },
              none,
              some { type := PieceT.b, color := Color.b },
              some { type := PieceT.q, color := Color.b },
              some { type := PieceT.k, color := Color.b },
              some { type := PieceT.b, color := Color.b },
              some { type := PieceT.n, color := Color.b },
              some { type := PieceT.r, color := Color.b }],
             [some { type := PieceT.p, color := Color.b },
              some { type := PieceT.p, color := Color.b },
              some { type := PieceT.p, color := Color.b },
              some { type := PieceT.p, color := Color.b },
              none,
              some { type := PieceT.p, color := Color.b },
              some { type := PieceT.p, color := Color.b },
              some { type := PieceT.p, color := Color.b }],
             [none, none, some { type := PieceT.n, color := Color.b }, none, none, none, none, none],
             [none,
              none,
              none,
              none,
              some { type := PieceT.p, color := Color.b },
              none,
              none,
              some { type := PieceT.q, color := Color.w }],
             [none,
              none,
              some { type := PieceT.b, color := Color.w },
              none,
              some { type := PieceT.p, color := Color.w },
              none,
              none,
              none],
             [none, none, none, none, none, none, none, none],
             [some { type := PieceT.p, color := Color.w },
              some { type := PieceT.p, color := Color.w },
              some { type := PieceT.p, color := Color.w },
              some { type := PieceT.p, color := Color.w },
              none,
              some { type := PieceT.p, color := Color.w },
              some { type := PieceT.p, color := Color.w },
              some { type := PieceT.p, color := Color.w }],
             [some { type := PieceT.r, color := Color.w },
              some { type := PieceT.n, color := Color.w },
              some { type := PieceT.b, color := Color.w },
              none,
              some { type := PieceT.k, color := Color.w },
              none,
              some { type := PieceT.n, color := Color.w },
              some { type := PieceT.r, color := Color.w }]],
   turn := Color.b,
   hist := [{ fr := 6, ff := 4, tr := 4, tf := 4, san := "e4", color := Color.w },
            { fr := 1, ff := 4, tr := 3, tf := 4, san := "e5", color := Color.b },
            { fr := 7, ff := 5, tr := 4, tf := 2, san := "Bc4", color := Color.w },
            { fr := 0, ff := 1, tr := 2, tf := 2, san := "Nc6", color := Color.b },
            { fr := 7, ff := 3, tr := 3, tf := 7, san := "Qh5", color := Color.w }],
   castling := { wk := true, wq := true, bk := true, bq := true },
   ep := none,
   capW := [],
   capB := [],
   inCheck := false,
   mate := false,
   stale := false,
   promo := none,
   log := ["e4", "e5", "Bc4", "Nc6", "Qh5"] }

def sC6 : GameState :=
{ board := [[some { type := PieceT.r, color := Color.b },
              none,
              some { type := PieceT.b, color := Color.b },
              some { type := PieceT.q, color := Color.b },
              some { type := PieceT.k, color := Color.b },
              some { type := PieceT.b, color := Color.b },
              none,
              some { type := PieceT.r, color := Color.b }],
             [some { type := PieceT.p, color := Color.b },
              some { type := PieceT.p, color := Color.b },
              some { type := PieceT.p, color := Color.b },
              some { type := PieceT.p, color := Color.b },
              none,
              some { type := PieceT.p, color := Color.b },
              some { type := PieceT.p, color := Color.b },
              some { type := PieceT.p, color := Color.b }],
             [none,
              none,
              some { type := PieceT.n, color := Color.b },
              none,
              none,
              some { type := PieceT.n, color := Color.b },
              none,
              none],
             [none,
              none,
              none,
              none,
              some { type := PieceT.p, color := Color.b },
              none,
              none,
              some { type := PieceT.q, color := Color.w }],
             [none,
              none,
              some { type := PieceT.b, color := Color.w },
              none,
              some { type := PieceT.p, color := Color.w },
              none,
              none,
              none],
             [none, none, none, none, none, none, none, none],
             [some { type := PieceT.p, color := Color.w },
              some { type := PieceT.p, color := Color.w },
              some { type := PieceT.p, color := Color.w },
              some { type := PieceT.p, color := Color.w },
              none,
              some { type := PieceT.p, color := Color.w },
              some { type := PieceT.p, color := Color.w },
              some { type := PieceT.p, color := Color.w }],
             [some { type := PieceT.r, color := Color.w },
              some { type := PieceT.n, color := Color.w },
              some { type := PieceT.b, color := Color.w },
              none,
              some { type := PieceT.k, color := Color.w },
              none,
              some { type := PieceT.n, color := Color.w },
              some { type := PieceT.r, color := Color.w }]],
   turn := Color.w,
   hist := [{ fr := 6, ff := 4, tr := 4, tf := 4, san := "e4", color := Color.w },
            { fr := 1, ff := 4, tr := 3, tf := 4, san := "e5", color := Color.b },
            { fr := 7, ff := 5, tr := 4, tf := 2, san := "Bc4", color := Color.w },
            { fr := 0, ff := 1, tr := 2, tf := 2, san := "Nc6", color := Color.b },
            { fr := 7, ff := 3, tr := 3, tf := 7, san := "Qh5", color := Color.w },
            { fr := 0, ff := 6, tr := 2, tf := 5, san := "Nf6", color := Color.b }],
   castling := { wk := true, wq := true, bk := true, bq := true },
   ep := none,
   capW := [],
   capB := [],
   inCheck := false,
   mate := false,
   stale := false,
   promo := none,
   log := ["e4", "e5", "Bc4", "Nc6", "Qh5", "Nf6"] }

def sC7 : GameState :=
{ board := [[some { type := PieceT.r, color := Color.b },
              none,
              some { type := PieceT.b, color := Color.b },
              some { type := PieceT.q, color := Color.b },
              some { type := PieceT.k, color := Color.b },
              some { type := PieceT.b, color := Color.b },
              none,
              some { type := PieceT.r, color := Color.b }],
             [some { type := PieceT.p, color := Color.b },
              some { type := PieceT.p, color := Color.b },
              some { type := PieceT.p, color := Color.b },
              some { type := PieceT.p, color := Color.b },
              none,
              some { type := PieceT.q, color := Color.w },
              some { type := PieceT.p, color := Color.b },
              some { type := PieceT.p, color := Color.b }],
             [none,
              none,
              some { type := PieceT.n, color := Color.b },
              none,
              none,
              some { type := PieceT.n, color := Color.b },
              none,
              none],
             [none, none, none, none, some { type := PieceT.p, color := Color.b }, none, none, none],
             [none,
              none,
              some { type := PieceT.b, color := Color.w },
              none,
              some { type := PieceT.p, color := Color.w },
              none,
              none,
              none],
             [none, none, none, none, none, none, none, none],
             [some { type := PieceT.p, color := Color.w },
              some { type := PieceT.p, color := Color.w },
              some { type := PieceT.p, color := Color.w },
              some { type := PieceT.p, color := Color.w },
              none,
              some { type := PieceT.p, color := Color.w },
              some { type := PieceT.p, color := Color.w },
              some { type := PieceT.p, color := Color.w }],
             [some { type := PieceT.r, color := Color.w },
              some { type := PieceT.n, color := Color.w },
              some { type := PieceT.b, color := Color.w },
              none,
              some { type := PieceT.k, color := Color.w },
              none,
              some { type := PieceT.n, color := Color.w },
              some { type := PieceT.r, color := Color.w }]],
   turn := Color.b,
   hist := [{ fr := 6, ff := 4, tr := 4, tf := 4, san := "e4", color := Color.w },
            { fr := 1, ff := 4, tr := 3, tf := 4, san := "e5", color := Color.b },
            { fr := 7, ff := 5, tr := 4, tf := 2, san := "Bc4", color := Color.w },
            { fr := 0, ff := 1, tr := 2, tf := 2, san := "Nc6", color := Color.b },
            { fr := 7, ff := 3, tr := 3, tf := 7, san := "Qh5", color := Color.w },
            { fr := 0, ff := 6, tr := 2, tf := 5, san := "Nf6", color := Color.b },
            { fr := 3, ff := 7, tr := 1, tf := 5, san := "Qxf7", color := Color.w }],
   castling := { wk := true, wq := true, bk := true, bq := true },
   ep := none,
   capW := [PieceT.p],
   capB := [],
   inCheck := true,
   mate := true,
   stale := false,
   promo := none,
   log := ["e4", "e5", "Bc4", "Nc6", "Qh5", "Nf6", "Qxf7#"] }

def sD2 : GameState :=
{ board := [[some { type := PieceT.r, color := Color.b },
              some { type := PieceT.n, color := Color.b },
              some { type := PieceT.b, color := Color.b },
              some { type := PieceT.q, color := Color.b },
              some { type := PieceT.k, color := Color.b },
              some { type := PieceT.b, color := Color.b },
              some { type := PieceT.n, color := Color.b },
              some { type := PieceT.r, color := Color.b }],
             [some { type := PieceT.p, color := Color.b },
              none,
              some { type := PieceT.p, color := Color.b },
              some { type := PieceT.p, color := Color.b },
              some { type := PieceT.p, color := Color.b },
              some { type := PieceT.p, color := Color.b },
              some { type := PieceT.p, color := Color.b },
              some { type := PieceT.p, color := Color.b }],
             [none, some { type := PieceT.p, color := Color.b }, none, none, none, none, none, none],
             [none, none, none, none, none, none, none, none],
             [none, none, none, none, some { type := PieceT.p, color := Color.w }, none, none, none],
             [none, none, none, none, none, none, none, none],
             [some { type := PieceT.p, color := Color.w },
              some { type := PieceT.p, color := Color.w },
              some { type := PieceT.p, color := Color.w },
              some { type := PieceT.p, color := Color.w },
              none,
              some { type := PieceT.p, color := Color.w },
              some { type := PieceT.p, color := Color.w },
              some { type := PieceT.p, color := Color.w }],
             [some { type := PieceT.r, color := Color.w },
              some { type := PieceT.n, color := Color.w },
              some { type := PieceT.b, color := Color.w },
              some { type := PieceT.q, color := Color.w },
              some { type := PieceT.k, color := Color.w },
              some { type := PieceT.b, color := Color.w },
              some { type := PieceT.n, color := Color.w },
              some { type := PieceT.r, color := Color.w }]],
   turn := Color.w,
   hist := [{ fr := 6, ff := 4, tr := 4, tf := 4, san := "e4", color := Color.w },
            { fr := 1, ff := 1, tr := 2, tf := 1, san := "b6", color := Color.b }],
   castling := { wk := true, wq := true, bk := true, bq := true },
   ep := none,
   capW := [],
   capB := [],
   inCheck := false,
   mate := false,
   stale := false,
   promo := none,
   log := ["e4", "b6"] }

def sD3 : GameState :=
{ board := [[some { type := PieceT.r, color := Color.b },
              some { type := PieceT.n, color := Color.b },
              some { type := PieceT.b, color := Color.b },
              some { type := PieceT.q, color := Color.b },
              some { type := PieceT.k, color := Color.b },
              some { type := PieceT.b, color := Color.b },
              some { type := PieceT.n, color := Color.b },
              some { type := PieceT.r, color := Color.b }],
             [some { type := PieceT.p, color := Color.b },
              none,
              some { type := PieceT.p, color := Color.b },
              some { type := PieceT.p, color := Color.b },
              some { type := PieceT.p, color := Color.b },
              some { type := PieceT.p, color := Color.b },
              some { type := PieceT.p, color := Color.b },
              some { type := PieceT.p, color := Color.b }],
             [none, some { type := PieceT.p, color := Color.b }, none, none, none, none, none, none],
             [none, none, none, none, some { type := PieceT.p, color := Color.w }, none, none, none],
             [none, none, none, none, none, none, none, none],
             [none, none, none, none, none, none, none, none],
             [some { type := PieceT.p, color := Color.w },
              some { type := PieceT.p, color := Color.w },
              some { type := PieceT.p, color := Color.w },
              some { type := PieceT.p, color := Color.w },
              none,
              some { type := PieceT.p, color := Color.w },
              some { type := PieceT.p, color := Color.w },
              some { type := PieceT.p, color := Color.w }],
             [some { type := PieceT.r, color := Color.w },
              some { type := PieceT.n, color := Color.w },
              some { type := PieceT.b, color := Color.w },
              some { type := PieceT.q, color := Color.w },
              some { type := PieceT.k, color := Color.w },
              some { type := PieceT.b, color := Color.w },
              some { type := PieceT.n, color := Color.w },
              some { type := PieceT.r, color := Color.w }]],
   turn := Color.b,
   hist := [{ fr := 6, ff := 4, tr := 4, tf := 4, san := "e4", color := Color.w },
            { fr := 1, ff := 1, tr := 2, tf := 1, san := "b6", color := Color.b },
            { fr := 4, ff := 4, tr := 3, tf := 4, san := "e5", color := Color.w }],
   castling := { wk := true, wq := true, bk := true, bq := true },
   ep := none,
   capW := [],
   capB := [],
   inCheck := false,
   mate := false,
   stale := false,
   promo := none,
   log := ["e4", "b6", "e5"] }

def sD4 : GameState :=
{ board := [[some { type := PieceT.r, color := Color.b },
              some { type := PieceT.n, color := Color.b },
              some { type := PieceT.b, color := Color.b },
              some { type := PieceT.q, color := Color.b },
              some { type := PieceT.k, color := Color.b },
              some { type := PieceT.b, color := Color.b },
              some { type := PieceT.n, color := Color.b },
              some { type := PieceT.r, color := Color.b }],
             [some { type := PieceT.p, color := Color.b },
              none,
              some { type := PieceT.p, color := Color.b },
              none,
              some { type := PieceT.p, color := Color.b },
              some { type := PieceT.p, color := Color.b },
              some { type := PieceT.p, color := Color.b },
              some { type := PieceT.p, color := Color.b }],
             [none, some { type := PieceT.p, color := Color.b }, none, none, none, none, none, none],
             [none,
              none,
              none,
              some { type := PieceT.p, color := Color.b },
              some { type := PieceT.p, color := Color.w },
              none,
              none,
              none],
             [none, none, none, none, none, none, none, none],
             [none, none, none, none, none, none, none, none],
             [some { type := PieceT.p, color := Color.w },
              some { type := PieceT.p, color := Color.w },
              some { type := PieceT.p, color := Color.w },
              some { type := PieceT.p, color := Color.w },
              none,
              some { type := PieceT.p, color := Color.w },
              some { type := PieceT.p, color := Color.w },
              some { type := PieceT.p, color := Color.w }],
             [some { type := PieceT.r, color := Color.w },
              some { type := PieceT.n, color := Color.w },
              some { type := PieceT.b, color := Color.w },
              some { type := PieceT.q, color := Color.w },
              some { type := PieceT.k, color := Color.w },
              some { type := PieceT.b, color := Color.w },
              some { type := PieceT.n, color := Color.w },
              some { type := PieceT.r, color := Color.w }]],
   turn := Color.w,
   hist := [{ fr := 6, ff := 4, tr := 4, tf := 4, san := "e4", color := Color.w },
            { fr := 1, ff := 1, tr := 2, tf := 1, san := "b6", color := Color.b },
            { fr := 4, ff := 4, tr := 3, tf := 4, san := "e5", color := Color.w },
            { fr := 1, ff := 3, tr := 3, tf := 3, san := "d5", color := Color.b }],
   castling := { wk := true, wq := true, bk := true, bq := true },
   ep := some (2, 3),
   capW := [],
   capB := [],
   inCheck := false,
   mate := false,
   stale := false,
   promo := none,
   log := ["e4", "b6", "e5", "d5"] }

def sD5 : GameState :=
{ board := [[some { type := PieceT.r, color := Color.b },
              some { type := PieceT.n, color := Color.b },
              some { type := PieceT.b, color := Color.b },
              some { type := PieceT.q, color := Color.b },
              some { type := PieceT.k, color := Color.b },
              some { type := PieceT.b, color := Color.b },
              some { type := PieceT.n, color := Color.b },
              some { type := PieceT.r, color := Color.b }],
             [some { type := PieceT.p, color := Color.b },
              none,
              some { type := PieceT.p, color := Color.b },
              none,
              some { type := PieceT.p, color := Color.b },
              some { type := PieceT.p, color := Color.b },
              some { type := PieceT.p, color := Color.b },
              some { type := PieceT.p, color := Color.b }],
             [none,
              some { type := PieceT.p, color := Color.b },
              none,
              some { type := PieceT.p, color := Color.w },
              none,
              none,
              none,
              none],
             [none, none, none, none, none, none, none, none],
             [none, none, none, none, none, none, none, none],
             [none, none, none, none, none, none, none, none],
             [some { type := PieceT.p, color := Color.w },
              some { type := PieceT.p, color := Color.w },
              some { type := PieceT.p, color := Color.w },
              some { type := PieceT.p, color := Color.w },
              none,
              some { type := PieceT.p, color := Color.w },
              some { type := PieceT.p, color := Color.w },
              some { type := PieceT.p, color := Color.w }],
             [some { type := PieceT.r, color := Color.w },
              some { type := PieceT.n, color := Color.w },
              some { type := PieceT.b, color := Color.w },
              some { type := PieceT.q, color := Color.w },
              some { type := PieceT.k, color := Color.w },
              some { type := PieceT.b, color := Color.w },
              some { type := PieceT.n, color := Color.w },
              some { type := PieceT.r, color := Color.w }]],
   turn := Color.b,
   hist := [{ fr := 6, ff := 4, tr := 4, tf := 4, san := "e4", color := Color.w },
            { fr := 1, ff := 1, tr := 2, tf := 1, san := "b6", color := Color.b },
            { fr := 4, ff := 4, tr := 3, tf := 4, san := "e5", color := Color.w },
            { fr := 1, ff := 3, tr := 3, tf := 3, san := "d5", color := Color.b },
            { fr := 3, ff := 4, tr := 2, tf := 3, san := "exd6", color := Color.w }],
   castling := { wk := true, wq := true, bk := true, bq := true },
   ep := none,
   capW := [PieceT.p],
   capB := [],
   inCheck := false,
   mate := false,
   stale := false,
   promo := none,
   log := ["e4", "b6", "e5", "d5", "exd6"] }

def sD6 : GameState :=
{ board := [[some { type := PieceT.r, color := Color.b },
              some { type := PieceT.n, color := Color.b },
              some { type := PieceT.b, color := Color.b },
              some { type := PieceT.q, color := Color.b },
              some { type := PieceT.k, color := Color.b },
              some { type := PieceT.b, color := Color.b },
              some { type := PieceT.n, color := Color.b },
              some { type := PieceT.r, color := Color.b }],
             [some { type := PieceT.p, color := Color.b },
              none,
              some { type := PieceT.p, color := Color.b },
              none,
              some { type := PieceT.p, color := Color.b },
              some { type := PieceT.p, color := Color.b },
              some { type := PieceT.p, color := Color.b },
              some { type := PieceT.p, color := Color.b }],
             [none, none, none, some { type := PieceT.p, color := Color.w }, none, none, none, none],
             [none, some { type := PieceT.p, color := Color.b }, none, none, none, none, none, none],
             [none, none, none, none, none, none, none, none],
             [none, none, none, none, none, none, none, none],
             [some { type := PieceT.p, color := Color.w },
              some { type := PieceT.p, color := Color.w },
              some { type := PieceT.p, color := Color.w },
              some { type := PieceT.p, color := Color.w },
              none,
              some { type := PieceT.p, color := Color.w },
              some { type := PieceT.p, color := Color.w },
              some { type := PieceT.p, color := Color.w }],
             [some { type := PieceT.r, color := Color.w },
              some { type := PieceT.n, color := Color.w },
              some { type := PieceT.b, color := Color.w },
              some { type := PieceT.q, color := Color.w },
              some { type := PieceT.k, color := Color.w },
              some { type := PieceT.b, color := Color.w },
              some { type := PieceT.n, color := Color.w },
              some { type := PieceT.r, color := Color.w }]],
   turn := Color.w,
   hist := [{ fr := 6, ff := 4, tr := 4, tf := 4, san := "e4", color := Color.w },
            { fr := 1, ff := 1, tr := 2, tf := 1, san := "b6", color := Color.b },
            { fr := 4, ff := 4, tr := 3, tf := 4, san := "e5", color := Color.w },
            { fr := 1, ff := 3, tr := 3, tf := 3, san := "d5", color := Color.b },
            { fr := 3, ff := 4, tr := 2, tf := 3, san := "exd6", color := Color.w },
            { fr := 2, ff := 1, tr := 3, tf := 1, san := "b5", color := Color.b }],
   castling := { wk := true, wq := true, bk := true, bq := true },
   ep := none,
   capW := [PieceT.p],
   capB := [],
   inCheck := false,
   mate := false,
   stale := false,
   promo := none,
   log := ["e4", "b6", "e5", "d5", "exd6", "b5"] }

def sD7 : GameState :=
{ board := [[some { type := PieceT.r, color := Color.b },
              some { type := PieceT.n, color := Color.b },
              some { type := PieceT.b, color := Color.b },
              some { type := PieceT.q, color := Color.b },
              some { type := PieceT.k, color := Color.b },
              some { type := PieceT.b, color := Color.b },
              some { type := PieceT.n, color := Color.b },
              some { type := PieceT.r, color := Color.b }],
             [some { type := PieceT.p, color := Color.b },
              none,
              some { type := PieceT.p, color := Color.b },
              none,
              some { type := PieceT.p, color := Color.b },
              some { type := PieceT.p, color := Color.b },
              some { type := PieceT.p, color := Color.b },
              some { type := PieceT.p, color := Color.b }],
             [none, none, none, some { type := PieceT.p, color := Color.w }, none, none, none, none],
             [none, some { type := PieceT.p, color := Color.b }, none, none, none, none, none, none],
             [none, none, none, none, none, none, none, none],
             [none, none, none, none, none, some { type := PieceT.n, color := Color.w }, none, none],
             [some { type := PieceT.p, color := Color.w },
              some { type := PieceT.p, color := Color.w },
              some { type := PieceT.p, color := Color.w },
              some { type := PieceT.p, color := Color.w },
              none,
              some { type := PieceT.p, color := Color.w },
              some { type := PieceT.p, color := Color.w },
              some { type := PieceT.p, color := Color.w }],
             [some { type := PieceT.r, color := Color.w },
              some { type := PieceT.n, color := Color.w },
              some { type := PieceT.b, color := Color.w },
              some { type := PieceT.q, color := Color.w },
              some { type := PieceT.k, color := Color.w },
              some { type := PieceT.b, color := Color.w },
              none,
              some { type := PieceT.r, color := Color.w }]],
   turn := Color.b,
   hist := [{ fr := 6, ff := 4, tr := 4, tf := 4, san := "e4", color := Color.w },
            { fr := 1, ff := 1, tr := 2, tf := 1, san := "b6", color := Color.b },
            { fr := 4, ff := 4, tr := 3, tf := 4, san := "e5", color := Color.w },
            { fr := 1, ff := 3, tr := 3, tf := 3, san := "d5", color := Color.b },
            { fr := 3, ff := 4, tr := 2, tf := 3, san := "exd6", color := Color.w },
            { fr := 2, ff := 1, tr := 3, tf := 1, san := "b5", color := Color.b },
            { fr := 7, ff := 6, tr := 5, tf := 5, san := "Nf3", color := Color.w }],
   castling := { wk := true, wq := true, bk := true, bq := true },
   ep := none,
   capW := [PieceT.p],
   capB := [],
   inCheck := false,
   mate := false,
   stale := false,
   promo := none,
   log := ["e4", "b6", "e5", "d5", "exd6", "b5", "Nf3"] }

set_option maxHeartbeats 8000000
set_option maxRecDepth 8000

/-- The position right after Black's double pawn advance 2...d5 of
`epGameSeq` (en-passant target d6 = `(2,3)`, white pawn on e5 = `(3,4)`). -/
def epReadySt : GameState := sD4

/-- Invariant preservation along `List.foldl`, remembering that each
processed element belongs to the list. -/
theorem foldlInv {α β : Type _} (f : β → α → β) (l : List α) (init : β)
    (P : β → Prop) (h0 : P init) (hstep : ∀ b a, a ∈ l → P b → P (f b a)) :
    P (l.foldl f init) := by
  induction l generalizing init with
  | nil => exact h0
  | cons x xs ih =>
    exact ih _ (hstep _ _ (by simp) h0)
      (fun b a ha hb => hstep b a (by simp [ha]) hb)

theorem bool_mate_stale (a b : Bool) : ¬((a && !b) = true ∧ (!a && !b) = true) := by
  cases a <;> cases b <;> simp

/-- One step of the engine's move path: executing the head move for the
side to move advances `playMoves` by one state. -/
theorem playMoves_cons (mv : (Int × Int) × (Int × Int)) {st st' : GameState}
    {rest : List ((Int × Int) × (Int × Int))}
    (h : cExec st mv.1.1 mv.1.2 mv.2.1 mv.2.2 st.turn false = some st') :
    playMoves st (mv :: rest) = playMoves st' rest := by
  simp only [playMoves, h]
theorem step_sA1 :
    cExec chessInitState 6 4 4 4 chessInitState.turn false = some sA1 := by
  decide

theorem step_sA2 :
    cExec sA1 1 4 3 4 sA1.turn false = some sA2 := by
  decide

theorem step_sB3 :
    cExec sA2 7 3 3 7 sA2.turn false = some sB3 := by
  decide

theorem step_sB4 :
    cExec sB3 0 1 2 2 sB3.turn false = some sB4 := by
  decide

theorem step_sB5 :
    cExec sB4 3 7 1 5 sB4.turn false = some sB5 := by
  decide

theorem step_sC3 :
    cExec sA2 7 5 4 2 sA2.turn false = some sC3 := by
  decide

theorem step_sC4 :
    cExec sC3 0 1 2 2 sC3.turn false = some sC4 := by
  decide

theorem step_sC5 :
    cExec sC4 7 3 3 7 sC4.turn false = some sC5 := by
  decide

theorem step_sC6 :
    cExec sC5 0 6 2 5 sC5.turn false = some sC6 := by
  decide

theorem step_sC7 :
    cExec sC6 3 7 1 5 sC6.turn false = some sC7 := by
  decide

theorem step_sD2 :
    cExec sA1 1 1 2 1 sA1.turn false = some sD2 := by
  decide

theorem step_sD3 :
    cExec sD2 4 4 3 4 sD2.turn false = some sD3 := by
  decide

theorem step_sD4 :
    cExec sD3 1 3 3 3 sD3.turn false = some sD4 := by
  decide

theorem step_sD5 :
    cExec sD4 3 4 2 3 sD4.turn false = some sD5 := by
  decide

theorem step_sD6 :
    cExec sD5 2 1 3 1 sD5.turn false = some sD6 := by
  decide

theorem step_sD7 :
    cExec sD6 7 6 5 5 sD6.turn false = some sD7 := by
  decide

theorem chain_scholarStated : playMoves chessInitState scholarStated = some sB5 := by
  show playMoves chessInitState
    [((6, 4), (4, 4)), ((1, 4), (3, 4)), ((7, 3), (3, 7)), ((0, 1), (2, 2)),
     ((3, 7), (1, 5))] = some sB5
  simp only [playMoves, step_sA1, step_sA2, step_sB3, step_sB4, step_sB5]

theorem chain_scholarReal : playMoves chessInitState scholarReal = some sC7 := by
  show playMoves chessInitState
    [((6, 4), (4, 4)), ((1, 4), (3, 4)), ((7, 5), (4, 2)), ((0, 1), (2, 2)),
     ((7, 3), (3, 7)), ((0, 6), (2, 5)), ((3, 7), (1, 5))] = some sC7
  simp only [playMoves, step_sA1, step_sA2, step_sC3, step_sC4, step_sC5,
    step_sC6, step_sC7]

theorem chain_ep7 : playMoves chessInitState epGameSeq = some sD7 := by
  show playMoves chessInitState
    [((6, 4), (4, 4)), ((1, 1), (2, 1)), ((4, 4), (3, 4)), ((1, 3), (3, 3)),
     ((3, 4), (2, 3)), ((2, 1), (3, 1)), ((7, 6), (5, 5))] = some sD7
  simp only [playMoves, step_sA1, step_sD2, step_sD3, step_sD4, step_sD5,
    step_sD6, step_sD7]

theorem chain_ep5 : playMoves chessInitState (epGameSeq.take 5) = some sD5 := by
  show playMoves chessInitState
    [((6, 4), (4, 4)), ((1, 1), (2, 1)), ((4, 4), (3, 4)), ((1, 3), (3, 3)),
     ((3, 4), (2, 3))] = some sD5
  simp only [playMoves, step_sA1, step_sD2, step_sD3, step_sD4, step_sD5]

theorem cFinish_ep (st : GameState) (fr ff tr tf : Int) (color : Color)
    (san : String) (silent : Bool) :
    (cFinish st fr ff tr tf color san silent).ep = st.ep := by
  cases silent <;> simp [cFinish]

theorem pushCap_ep (st : GameState) (c : Color) (t : PieceT) :
    (pushCap st c t).ep = st.ep := by
  cases c <;> simp [pushCap]

theorem execCapture_ep (st : GameState) (c : Color) (t : Option Piece) :
    (execCapture st c t).ep = st.ep := by
  cases t <;> simp [execCapture, pushCap_ep]

theorem execEpCapture_ep (st : GameState) (piece : Piece) (tr tf : Int) (c : Color) :
    (execEpCapture st piece tr tf c).ep = st.ep := by
  unfold execEpCapture
  split
  · cases c
    · simp only [if_pos rfl]
      cases hb : bGet st.board (tr + 1) tf <;> simp [hb, pushCap_ep]
    · simp only [reduceIte]
      cases hb : bGet st.board (tr - 1) tf <;> simp [hb, pushCap_ep]
  · rfl

theorem execRelocate_ep (st : GameState) (piece : Piece) (fr ff tr tf : Int) :
    (execRelocate st piece fr ff tr tf).ep = st.ep := rfl

theorem execKing_ep (st : GameState) (piece : Piece) (ff tr tf : Int) (c : Color) :
    (execKing st piece ff tr tf c).ep = st.ep := by
  unfold execKing
  split
  · split <;> split <;> rfl
  · rfl

theorem execRook_ep (st : GameState) (piece : Piece) (ff : Int) (c : Color) :
    (execRook st piece ff c).ep = st.ep := by
  unfold execRook
  split
  · split <;> split <;> rfl
  · rfl

theorem execEpUpdate_ep (st : GameState) (piece : Piece) (fr ff tr : Int) :
    (execEpUpdate st piece fr ff tr).ep =
      (if piece.type = PieceT.p ∧ (tr - fr = 2 ∨ fr - tr = 2)
        then some ((fr + tr) / 2, ff) else none) := by
  unfold execEpUpdate
  split <;> simp_all

theorem cExec_ep_formula (st : GameState) (fr ff tr tf : Int) (color : Color)
    (silent : Bool) (piece : Piece) (hp : bGet st.board fr ff = some piece) :
    (cExec st fr ff tr tf color silent).map GameState.ep =
      some (if piece.type = PieceT.p ∧ (tr - fr = 2 ∨ fr - tr = 2)
            then some ((fr + tr) / 2, ff) else none) := by
  simp only [cExec, hp]
  split
  · split <;> simp [cFinish_ep, execEpUpdate_ep]
  · simp [cFinish_ep, execEpUpdate_ep]

theorem cPseudo_unfold : cPseudo = cPseudoFStep (cPseudoF 63) := rfl

theorem mem_ite_nil_iff {α : Type _} {x : α} {c : Prop} [Decidable c] {l : List α} :
    (x ∈ (if c then l else [])) ↔ c ∧ x ∈ l := by
  split <;> simp_all

theorem isOppPiece_true {ob : Option Piece} {opp : Color}
    (h : isOppPiece ob opp = true) : ∃ t, ob = some t ∧ t.color = opp := by
  cases ob with
  | none => simp [isOppPiece] at h
  | some t => exact ⟨t, rfl, by simpa [isOppPiece] using h⟩

theorem pawn_empty_diag_needs_ep (pv : PosView) (r f : Int) (color : Color)
    (tr tf : Int) (hp : bGet pv.board r f = some ⟨PieceT.p, color⟩)
    (hmem : (tr, tf) ∈ cPseudo pv r f color)
    (hempty : bGet pv.board tr tf = none) (hdiag : tf ≠ f) :
    pv.ep = some (tr, tf) := by
  rw [cPseudo_unfold] at hmem
  unfold cPseudoFStep at hmem
  rw [hp] at hmem
  simp only [ne_eq, not_true_eq_false, if_false, ite_false, List.mem_append,
    List.mem_flatMap, List.mem_cons, List.mem_singleton, mem_ite_nil_iff,
    Prod.mk.injEq, List.not_mem_nil, or_false, false_or] at hmem
  rcases hmem with ⟨-, hf⟩ | ⟨df, -, -, hd⟩
  · rcases hf with ⟨-, hteq⟩ | ⟨-, -, hteq⟩ <;> exact absurd hteq hdiag
  · rcases hd with ⟨hopp, htr2, htf2⟩ | ⟨hcond, htr2, htf2⟩
    · obtain ⟨t, hbt, -⟩ := isOppPiece_true hopp
      rw [htr2, htf2] at hempty
      rw [hempty] at hbt
      cases hbt
    · rw [htr2, htf2]
      exact hcond

theorem ep_capture_offered (pv : PosView) (r f : Int) (color : Color)
    (tr2 tf2 : Int) (hp : bGet pv.board r f = some ⟨PieceT.p, color⟩)
    (hep : pv.ep = some (tr2, tf2))
    (htr : tr2 = r + (if color = Color.w then -1 else 1))
    (htf : tf2 = f - 1 ∨ tf2 = f + 1)
    (hbnd : 0 ≤ tr2 ∧ tr2 < 8 ∧ 0 ≤ tf2 ∧ tf2 < 8) :
    (tr2, tf2) ∈ cPseudo pv r f color := by
  rw [cPseudo_unfold]
  unfold cPseudoFStep
  rw [hp]
  simp only [ne_eq, not_true_eq_false, if_false, ite_false, List.mem_append,
    List.mem_flatMap, List.mem_cons, List.mem_singleton, mem_ite_nil_iff,
    Prod.mk.injEq, List.not_mem_nil, or_false, false_or]
  refine Or.inr ⟨tf2 - f, ?_, ?_, Or.inr ⟨?_, ?_, ?_⟩⟩
  · rcases htf with h | h <;> rw [h] <;> norm_num
  · rw [show f + (tf2 - f) = tf2 from by ring, ← htr]
    exact hbnd
  · rw [show f + (tf2 - f) = tf2 from by ring, ← htr]
    exact hep
  · exact htr
  · ring

/-- C9: at any positive remaining depth, when the side to move at that ply
(Black when maximizing, White when minimizing) has no legal move from any
square, the alpha-beta recursion `cAB` returns the forced extreme score
−99999 for the maximizing side and +99999 for the minimizing side rather
than a static evaluation. -/
theorem cAB_no_moves_extreme (d : Nat) (maximizing : Bool) (alpha beta : Int)
    (st : GameState)
    (h : ∀ sq ∈ squares,
      cGetLegal st.pos sq.1 sq.2 (abColor maximizing) = []) :
    (cAB (d + 1) maximizing alpha beta st).1 =
      if maximizing then -99999 else 99999 := by
  show (cABStep (cAB d) maximizing alpha beta st).1 = _
  unfold cABStep
  dsimp only
  have hinv :=
    foldlInv
      (cABSquareStep (cAB d) maximizing (abColor maximizing)
        st.board st.castling st.ep st.turn st.inCheck)
      squares
      ⟨if maximizing then negInf else posInf, alpha, beta, false, st, false⟩
      (fun acc => acc.broke = false ∧ acc.moved = false ∧
        acc.st.board = st.board ∧ acc.st.ep = st.ep ∧ acc.st.castling = st.castling)
      ⟨rfl, rfl, rfl, rfl, rfl⟩
      (by
        intro acc sq hsq hacc
        obtain ⟨hbroke, hmoved, hb, he, hc⟩ := hacc
        unfold cABSquareStep
        rw [hbroke]
        simp only [Bool.false_eq_true, if_false]
        cases hpc : bGet acc.st.board sq.1 sq.2 with
        | none => exact ⟨hbroke, hmoved, hb, he, hc⟩
        | some p =>
          dsimp only
          by_cases hcol : p.color ≠ abColor maximizing
          · rw [if_pos hcol]
            exact ⟨hbroke, hmoved, hb, he, hc⟩
          · rw [if_neg hcol]
            have hms : cGetLegal
                (⟨acc.st.board, acc.st.ep, acc.st.castling, st.inCheck⟩ : PosView)
                sq.1 sq.2 (abColor maximizing) = [] := by
              rw [show (⟨acc.st.board, acc.st.ep, acc.st.castling, st.inCheck⟩ : PosView) = st.pos by
                rw [hb, he, hc]; rfl]
              exact h sq hsq
            rw [hms]
            simp only [List.foldl_nil]
            exact ⟨trivial, hmoved, hb, he, hc⟩)
  simp only [hinv.2.1, Bool.false_eq_true, if_false]

theorem bookkeeping_restore (res2 : GameState) (sB : Board) (sC : Castling)
    (sE : Option (Int × Int)) (sTu : Color) (sCh : Bool) :
    ({ res2 with board := sB, castling := sC, ep := sE, turn := sTu, inCheck := sCh } :
      GameState).bookkeeping = res2.bookkeeping := rfl

theorem bookkeeping_moved (s : GameState) (b : Board) (tu : Color) (ic : Bool) :
    ({ s with board := b, turn := tu, inCheck := ic } : GameState).bookkeeping =
      s.bookkeeping := rfl

theorem cAB_bookkeeping (d : Nat) (mx : Bool) (alpha beta : Int) (st : GameState) :
    ((cAB d mx alpha beta st).2).bookkeeping = st.bookkeeping := by
  induction d generalizing mx alpha beta st with
  | zero => rfl
  | succ d ih =>
    show ((cABStep (cAB d) mx alpha beta st).2).bookkeeping = st.bookkeeping
    unfold cABStep
    dsimp only
    refine foldlInv _ squares _
      (fun acc : ABAcc => acc.st.bookkeeping = st.bookkeeping) rfl ?_
    intro acc sq _ hacc
    unfold cABSquareStep
    split
    · exact hacc
    · cases hpc : bGet acc.st.board sq.1 sq.2 with
      | none => exact hacc
      | some p =>
        dsimp only
        by_cases hcol : p.color ≠ abColor mx
        · rw [if_pos hcol]
          exact hacc
        · rw [if_neg hcol]
          refine foldlInv _ _ _
            (fun a : ABAcc => a.st.bookkeeping = st.bookkeeping)
            (by simpa [GameState.bookkeeping] using hacc) ?_
          intro a m _ ha
          unfold cABMoveStep
          split
          · exact ha
          · split
            · exact ha
            · by_cases hmx : mx = true
              · rw [if_pos hmx]
                exact Eq.trans (ih (!mx) a.alpha a.beta _) ha
              · rw [if_neg hmx]
                exact Eq.trans (ih (!mx) a.alpha a.beta _) ha

theorem bookkeeping_fields {s t : GameState} (h : s.bookkeeping = t.bookkeeping) :
    s.hist = t.hist ∧ s.capW = t.capW ∧ s.capB = t.capB ∧ s.mate = t.mate ∧
      s.stale = t.stale ∧ s.promo = t.promo ∧ s.log = t.log := by
  simpa [GameState.bookkeeping, Prod.mk.injEq] using h

theorem restore_eq (res2 st : GameState) (h : res2.bookkeeping = st.bookkeeping) :
    ({ res2 with board := st.board, castling := st.castling, ep := st.ep, turn := st.turn, inCheck := st.inCheck } : GameState) = st := by
  obtain ⟨h1, h2, h3, h4, h5, h6, h7⟩ := bookkeeping_fields h
  cases res2
  cases st
  simp_all

/-- C1: every destination the legal-move generator `cGetLegal` returns,
when applied with the generator's own simulation rules (piece relocation
plus removal of the en-passant-captured pawn when the destination is the
en-passant target), yields a board on which `cIsInCheck` reports the
mover's colour not in check.  Stated for every state, which subsumes the
claim's reachable positions. -/
theorem cGetLegal_leaves_no_check (pv : PosView) (r f : Int) (color : Color)
    (m : Int × Int) (hm : m ∈ cGetLegal pv r f color) :
    cIsInCheck { pv with board := cSimBoard pv r f m.1 m.2 color } color = false := by
  have h := (List.mem_filter.mp hm).2
  simpa using h

theorem cGetLegal_leaves_no_check_witness :
    ((5, 4) ∈ cGetLegal chessInitState.pos 6 4 Color.w) ∧
      cIsInCheck
        { chessInitState.pos with
          board := cSimBoard chessInitState.pos 6 4 5 4 Color.w } Color.w = false :=
  ⟨by decide, cGetLegal_leaves_no_check _ _ _ _ (5, 4) (by decide)⟩

/-- C2 counterexample: on a board holding a lone black pawn on a7 with a6
empty, the source's `cAtk` reports the empty square a6 directly in front
of the pawn as attacked (a pawn's forward push belongs to its pseudo-move
set), while the spec's predicate — pawn attack squares only, never
forward pushes — reports it unattacked.  So `cAtk` is not the function
the claim describes. -/
theorem cAtk_counts_pawn_pushes :
    cAtk pawnOnlyView 2 0 Color.b = true ∧
      specIsSquareAttacked pawnOnlyView 2 0 Color.b = false :=
  ⟨by decide, by decide⟩

/-- C2 amended: `cAtk(r, f, by)` returns true exactly when some piece of
`by` has `(r, f)` in its full `cPseudo` pseudo-move set — which for a pawn
includes its forward-push squares when they are empty, and includes a
diagonal square only when it holds an enemy piece or is the en-passant
target. -/
theorem cAtk_iff_pseudo (pv : PosView) (r f : Int) (byc : Color) :
    cAtk pv r f byc = true ↔
      ∃ sq ∈ squares, ∃ p, bGet pv.board sq.1 sq.2 = some p ∧ p.color = byc ∧
        (r, f) ∈ cPseudo pv sq.1 sq.2 byc := by
  show atkScan (cPseudoF FUEL) pv r f byc = true ↔ _
  unfold atkScan
  rw [List.any_eq_true]
  constructor
  · rintro ⟨sq, hsq, hcond⟩
    refine ⟨sq, hsq, ?_⟩
    cases hb : bGet pv.board sq.1 sq.2 with
    | none => rw [hb] at hcond; exact absurd hcond (by simp)
    | some p =>
      rw [hb] at hcond
      simp only [Bool.and_eq_true, decide_eq_true_eq, List.any_eq_true] at hcond
      obtain ⟨hc, mv, hmv, h1, h2⟩ := hcond
      refine ⟨p, rfl, hc, ?_⟩
      have hprod : mv = (r, f) := Prod.ext h1 h2
      rw [← hprod]
      exact hmv
  · rintro ⟨sq, hsq, p, hb, hc, hmem⟩
    refine ⟨sq, hsq, ?_⟩
    rw [hb]
    simp only [Bool.and_eq_true, decide_eq_true_eq, List.any_eq_true]
    exact ⟨hc, (r, f), hmem, rfl, rfl⟩

/-- C3: `chessUndo` evaluated on a concrete seven-half-move game whose
fifth half-move is an en-passant capture (1.e4 b6 2.e5 d5 3.exd6 b5
4.Nf3).  The undo drops the last two records and replays the first five,
but its replay loop omits the en-passant pawn removal that `cExec`
performs, so the rebuilt board still holds the black pawn on d5 (square
`(3,3)`), while the real position after those same five half-moves — the
position the claim requires undo to reproduce — has that pawn gone.
Undo on a fresh game (fewer than two half-moves) is a rejected no-op. -/
theorem chessUndo_misses_ep_removal :
    playMoves chessInitState epGameSeq = some sD7 ∧
      playMoves chessInitState (epGameSeq.take 5) = some sD5 ∧
      bGet (chessUndo sD7).board 3 3 = some ⟨PieceT.p, Color.b⟩ ∧
      (chessUndo sD7).turn = Color.b ∧
      bGet sD5.board 3 3 = none ∧
      sD5.turn = Color.b ∧
      chessUndo chessInitState = chessInitState :=
  ⟨chain_ep7, chain_ep5, by decide, by decide, by decide, by decide, rfl⟩

/-- C4 counterexample: the claim's literal sequence e2-e4, e7-e5, d1-h5,
b8-c6, h5xf7 is not checkmate — Ke8xf7 is a legal reply since the queen
on f7 is undefended — and the engine correctly reports only check: the
mate flag is false and the logged notation is `Qxf7+`, not `Qxf7#`. -/
theorem scholar_without_bishop_not_mate :
    playMoves chessInitState scholarStated = some sB5 ∧
      sB5.mate = false ∧ sB5.inCheck = true ∧ sB5.turn = Color.b ∧
      sB5.log.getLast? = some "Qxf7+" :=
  ⟨chain_scholarStated, rfl, rfl, rfl, by decide⟩

/-- C4 amended: an actual scholar's mate through the engine's
move-execution path — e2-e4, e7-e5, f1-c4, b8-c6, d1-h5, g8-f6, h5xf7 —
ends with the checkmate flag true and Black to move (so White, the mover,
wins), the final logged notation carrying `#`. -/
theorem scholars_mate_detected :
    playMoves chessInitState scholarReal = some sC7 ∧
      sC7.mate = true ∧ sC7.turn = Color.b ∧
      sC7.log.getLast? = some "Qxf7#" :=
  ⟨chain_scholarReal, rfl, rfl, by decide⟩

/-- C5: the search root `cMinimax` returns the global state exactly as it
received it (board, castling rights, en-passant target, side to move,
in-check flag and all bookkeeping structurally unchanged), and any move
it returns lies in the legal-move set, computed on the unchanged state,
of the AI side for that move's origin square. -/
theorem cMinimax_frame_and_legal (st : GameState) :
    (cMinimax st).2 = st ∧
      ∀ mv, (cMinimax st).1 = some mv →
        (mv.tr, mv.tf) ∈ cGetLegal st.pos mv.fr mv.ff Color.b := by
  unfold cMinimax
  dsimp only
  refine foldlInv _ squares _
    (fun acc : MMAcc => acc.st = st ∧ ∀ mv, acc.bestM = some mv →
      (mv.tr, mv.tf) ∈ cGetLegal st.pos mv.fr mv.ff Color.b)
    ⟨rfl, fun mv hmv => nomatch hmv⟩ ?_
  intro acc rf _ hacc
  obtain ⟨hst, hbm⟩ := hacc
  unfold cMinimaxSquareStep
  cases hpc : bGet acc.st.board rf.1 rf.2 with
  | none => exact ⟨hst, hbm⟩
  | some p =>
    dsimp only
    by_cases hcol : p.color ≠ Color.b
    · rw [if_pos hcol]
      exact ⟨hst, hbm⟩
    · rw [if_neg hcol]
      refine foldlInv _ _ _
        (fun a : MMAcc => a.st = st ∧ ∀ mv, a.bestM = some mv →
          (mv.tr, mv.tf) ∈ cGetLegal st.pos mv.fr mv.ff Color.b)
        ⟨hst, hbm⟩ ?_
      intro a m hm ha
      obtain ⟨hast, habm⟩ := ha
      rw [hst] at hm
      unfold cMinimaxMoveStep
      cases hpc2 : bGet a.st.board rf.1 rf.2 with
      | none => exact ⟨hast, habm⟩
      | some piece =>
        dsimp only
        split <;> split <;>
          first
            | exact ⟨restore_eq _ _
                  (by rw [cAB_bookkeeping, bookkeeping_moved, hast]),
                fun mv hmv => by cases hmv; simpa using hm⟩
            | exact ⟨restore_eq _ _
                  (by rw [cAB_bookkeeping, bookkeeping_moved, hast]),
                habm⟩

theorem cMinimax_frame_and_legal_witness :
    (cMinimax miniSt).1 = some ⟨0, 0, 0, 1⟩ ∧
      ((0 : Int), (1 : Int)) ∈ cGetLegal miniSt.pos 0 0 Color.b :=
  ⟨by decide, by
    have h := (cMinimax_frame_and_legal miniSt).2 ⟨0, 0, 0, 1⟩ (by decide)
    simpa using h⟩

/-- C6: after a completed half-move, `cFinish` flips the side to move and
derives the status exactly by `inCheck = cIsInCheck(newSide)`,
`mate = inCheck && !hasAnyLegal(newSide)` and
`stale = !inCheck && !hasAnyLegal(newSide)` (the in-check test evaluated
on the pre-update view, the legal-move test on the updated one, as in the
source); consequently the mate and stale flags are never both true in any
state `cFinish` produces. -/
theorem cFinish_status (st : GameState) (fr ff tr tf : Int) (color : Color)
    (san : String) (silent : Bool) :
    (cFinish st fr ff tr tf color san silent).turn = flipColor color ∧
    (cFinish st fr ff tr tf color san silent).inCheck =
      cIsInCheck st.pos (flipColor color) ∧
    (cFinish st fr ff tr tf color san silent).mate =
      ((cFinish st fr ff tr tf color san silent).inCheck &&
        !cHasLegal (cFinish st fr ff tr tf color san silent).pos (flipColor color)) ∧
    (cFinish st fr ff tr tf color san silent).stale =
      (!(cFinish st fr ff tr tf color san silent).inCheck &&
        !cHasLegal (cFinish st fr ff tr tf color san silent).pos (flipColor color)) ∧
    ¬((cFinish st fr ff tr tf color san silent).mate = true ∧
      (cFinish st fr ff tr tf color san silent).stale = true) := by
  cases silent <;>
    simp only [cFinish, GameState.pos] <;>
    exact ⟨rfl, rfl, rfl, rfl, bool_mate_stale _ _⟩

/-- C7: in the position built by `chessInitState`, the union over all
squares of `cGetLegal(r, f, 'w')` holds exactly 20 pairwise distinct
moves. -/
theorem initial_white_moves_twenty :
    whiteInitMoves.length = 20 ∧ whiteInitMoves.Nodup :=
  ⟨by decide, by decide⟩

/-- C8: the en-passant lifecycle.  First, `cExec` sets the en-passant
target to the skipped square exactly when the moving piece is a pawn
advancing two ranks, and clears it on every other move.  Second, the
pseudo-move generator offers a pawn move onto an empty square of a
different file (the en-passant capture shape) only when that square is
the current en-passant target — so the capture is never offered once a
later move has reset the target.  Third, when the target is set and an
enemy pawn sits diagonally adjacent, the capture onto the skipped square
is offered. -/
theorem ep_target_lifecycle :
    (∀ (st : GameState) (fr ff tr tf : Int) (color : Color) (silent : Bool)
        (piece : Piece), bGet st.board fr ff = some piece →
      (cExec st fr ff tr tf color silent).map GameState.ep =
        some (if piece.type = PieceT.p ∧ (tr - fr = 2 ∨ fr - tr = 2)
              then some ((fr + tr) / 2, ff) else none)) ∧
    (∀ (pv : PosView) (r f tr tf : Int) (color : Color),
      bGet pv.board r f = some ⟨PieceT.p, color⟩ →
      (tr, tf) ∈ cPseudo pv r f color → bGet pv.board tr tf = none → tf ≠ f →
      pv.ep = some (tr, tf)) ∧
    (∀ (pv : PosView) (r f tr2 tf2 : Int) (color : Color),
      bGet pv.board r f = some ⟨PieceT.p, color⟩ →
      pv.ep = some (tr2, tf2) →
      tr2 = r + (if color = Color.w then -1 else 1) →
      (tf2 = f - 1 ∨ tf2 = f + 1) →
      (0 ≤ tr2 ∧ tr2 < 8 ∧ 0 ≤ tf2 ∧ tf2 < 8) →
      (tr2, tf2) ∈ cPseudo pv r f color) :=
  ⟨fun st fr ff tr tf color silent piece hp =>
      cExec_ep_formula st fr ff tr tf color silent piece hp,
   fun pv r f tr tf color hp hm he hd =>
      pawn_empty_diag_needs_ep pv r f color tr tf hp hm he hd,
   fun pv r f tr2 tf2 color hp hep htr htf hb =>
      ep_capture_offered pv r f color tr2 tf2 hp hep htr htf hb⟩

theorem ep_target_lifecycle_witness :
    bGet chessInitState.board 6 4 = some ⟨PieceT.p, Color.w⟩ ∧
      (cExec chessInitState 6 4 4 4 Color.w false).map GameState.ep =
        some (some (5, 4)) ∧
      ((2 : Int), (3 : Int)) ∈ cPseudo epReadySt.pos 3 4 Color.w ∧
      epReadySt.pos.ep = some (2, 3) := by
  refine ⟨by decide, ?_, ?_, ?_⟩
  · exact (ep_target_lifecycle.1 chessInitState 6 4 4 4 Color.w false
      ⟨PieceT.p, Color.w⟩ (by decide)).trans (by decide)
  · exact ep_target_lifecycle.2.2 epReadySt.pos 3 4 2 3 Color.w (by decide)
      (by decide) (by decide) (by decide) (by decide)
  · exact ep_target_lifecycle.2.1 epReadySt.pos 3 4 2 3 Color.w (by decide)
      (by decide) (by decide) (by decide)

theorem cAB_no_moves_extreme_witness :
    (∀ sq ∈ squares, cGetLegal staleSt.pos sq.1 sq.2 (abColor true) = []) ∧
      (cAB 1 true negInf posInf staleSt).1 = -99999 :=
  ⟨by decide, by
    have h := cAB_no_moves_extreme 0 true negInf posInf staleSt (by decide)
    simpa using h⟩

/-- C10: `cIsInCheck` on a board holding no king of the queried colour
returns `false` (the source's `kr === -1` early return) instead of
failing, for every board value. -/
theorem cIsInCheck_no_king_false (pv : PosView) (color : Color)
    (h : ∀ sq ∈ squares, isKingOf (bGet pv.board sq.1 sq.2) color = false) :
    cIsInCheck pv color = false := by
  have hfind : findKing pv.board color = none := by
    unfold findKing
    apply foldlInv _ _ _ (fun acc => acc = none) rfl
    intro acc sq hsq hacc
    have hk := h sq hsq
    cases hb : bGet pv.board sq.1 sq.2 with
    | none => simpa [hb] using hacc
    | some p =>
      rw [hb] at hk
      simp only [isKingOf, Bool.and_eq_true, decide_eq_true_eq] at hk
      have hnk : ¬(p.type = PieceT.k ∧ p.color = color) := by
        intro hcontra
        rw [hcontra.1, hcontra.2] at hk
        simp at hk
      simpa [hb, hnk] using hacc
  simp [cIsInCheck, hfind]

theorem cIsInCheck_no_king_false_witness :
    (∀ sq ∈ squares, isKingOf (bGet pawnOnlyView.board sq.1 sq.2) Color.w = false) ∧
      cIsInCheck pawnOnlyView Color.w = false :=
  ⟨by decide, cIsInCheck_no_king_false _ _ (by decide)⟩
